import Mathlib

/-!
RSA key marshaling and OAEP-SHA256 facade (`main.cpp`)

A shallow embedding of the six entry points of `main.cpp`
(`sgx_create_rsa_key_pair`, `sgx_create_rsa_priv2_key`, `sgx_create_rsa_pub1_key`,
`sgx_create_rsa_priv1_key`, `sgx_rsa_pub_encrypt_sha256`, `sgx_rsa_priv_decrypt_sha256`).

The functions are glue around a cryptography provider (OpenSSL).  The provider is not part
of the repository.  Its big-number marshaling and arithmetic, its `EVP_PKEY_CTX` settings and
the layout of its OAEP padding are embedded from their documented behaviour (`BN_lebin2bn`,
`BN_bn2lebinpad`, `BN_num_bytes`, `BN_mod_inverse`, `EVP_PKEY_encrypt`, RFC 8017); what is
random or can fail for reasons outside the program (key generation, allocation, the RSA
primitives, the digest and the mask generator) is a parameter of each function, so every
theorem quantifies over it.

Conventions.
* A C pointer argument is an `Option`: `none` is `NULL`, `some b` is the memory it points to.
* A C `int` size is an `Int`; a `size_t` is a `Nat`.
* A `BIGNUM` is an unbounded integer (`Nat` where the value comes from bytes, `Int` where
  the source subtracts).
* Where provider releases differ (`BN_nnmod` on an aliased result) the release is a
  parameter as well.
* Big-number allocations whose result the source never tests (`BN_new`, `BN_CTX_new`,
  `BN_lebin2bn`, `BN_dup`) are taken to succeed: a null result there is dereferenced by the
  next provider call, which lies outside the embedding.
-/

namespace SgxRsa

/-! ## Status codes and byte buffers -/

/-- The anonymous status enum of the source (lines 49-54). -/
inductive Status
  | SUCCESS
  | ERROR_INVALID_PARAMETER
  | ERROR_UNEXPECTED
  | ERROR_OUT_OF_MEMORY
  deriving DecidableEq, Repr

/-- An `unsigned char`. -/
abbrev Byte := Fin 256

/-- The memory an `unsigned char *` points to, from the pointer on. -/
abbrev Buffer := List Byte

/-- The C constant `INT_MAX` for a 32-bit `int`. -/
def INT_MAX : Nat := 2147483647

/-! ## Big-number marshaling of the provider -/

/-- Value of a byte string read least-significant byte first. -/
def leValue : List Byte → Nat
  | [] => 0
  | b :: bs => b.val + 256 * leValue bs

/-- Provider call `BN_lebin2bn(s, len, NULL)`: the unsigned integer held little-endian in the
first `len` bytes at `s`.  (A list shorter than `len` is read as far as it goes: the bytes
behind it are memory the embedding does not hold.) -/
def BN_lebin2bn (s : Buffer) (len : Nat) : Nat :=
  leValue (s.take len)

/-- Number of base-256 digits of `a`, by recursion on a bound `fuel` of the digit count. -/
def numBytesAux : Nat → Nat → Nat
  | 0, _ => 0
  | fuel + 1, a => if a = 0 then 0 else 1 + numBytesAux fuel (a / 256)

/-- Provider macro `BN_num_bytes(a)`: the least number of bytes that hold `a`
(`(BN_num_bits(a)+7)/8`; `0` for `a = 0`). -/
def BN_num_bytes (a : Nat) : Nat :=
  numBytesAux a a

/-- The `k` low base-256 digits of `a`, least significant first. -/
def leBytes (a : Nat) : Nat → List Byte
  | 0 => []
  | k + 1 => ⟨a % 256, Nat.mod_lt a (by decide)⟩ :: leBytes (a / 256) k

/-- Provider call `BN_bn2lebinpad(a, dst, tolen)`: returns `-1` and writes nothing when
`tolen < BN_num_bytes(a)`; otherwise writes exactly `tolen` bytes at `dst` (the value
little-endian, zero padded up to `tolen`) and returns `tolen`.  Bytes of `dst` from offset
`tolen` on are left as they were. -/
def BN_bn2lebinpad (a : Nat) (dst : Buffer) (tolen : Nat) : Int × Buffer :=
  if tolen < BN_num_bytes a then (-1, dst)
  else ((tolen : Int), leBytes a tolen ++ dst.drop tolen)

/-! ## `sgx_create_rsa_key_pair` (lines 84-156) -/

/-- The eight output buffers of `sgx_create_rsa_key_pair`, in the order the source copies
them (lines 136-143). -/
inductive KeyField
  | n | d | e | p | q | dmp1 | dmq1 | iqmp
  deriving DecidableEq, Repr

/-- What `RSA_generate_key_ex` leaves in the RSA object besides the exponent it was given. -/
structure GeneratedKey where
  n : Nat
  d : Nat
  p : Nat
  q : Nat
  dmp1 : Nat
  dmq1 : Nat
  iqmp : Nat
  deriving DecidableEq, Repr

/-- The provider as seen by `sgx_create_rsa_key_pair`: whether `RSA_new` returns an object,
and the outcome of `RSA_generate_key_ex(rsa, bits, e, NULL)` (`none`: it did not return 1). -/
structure KeyPairProvider where
  RSA_new_ok : Bool
  RSA_generate_key_ex : Int → Nat → Option GeneratedKey

/-- Provider functions, as they appear in call traces. -/
inductive Call
  | RSA_new | RSA_free | RSA_generate_key_ex | RSA_size
  | RSA_get0_key | RSA_get0_factors | RSA_get0_crt_params
  | RSA_set0_key | RSA_set0_factors | RSA_set0_crt_params
  | BN_CTX_new | BN_CTX_free | BN_new | BN_lebin2bn | BN_bn2lebinpad | BN_num_bytes
  | BN_mul | BN_dup | BN_set_flags | BN_sub | BN_add_word | BN_mod_inverse | BN_clear_free
  | EVP_PKEY_new | EVP_PKEY_assign_RSA | EVP_PKEY_free
  | EVP_PKEY_CTX_new | EVP_PKEY_CTX_free | EVP_PKEY_encrypt_init | EVP_PKEY_decrypt_init
  | EVP_PKEY_CTX_set_rsa_padding | EVP_PKEY_CTX_set_rsa_oaep_md | EVP_sha256
  | EVP_PKEY_encrypt | EVP_PKEY_decrypt
  deriving DecidableEq, Repr

/-- The caller's memory behind the eight pointer arguments (`none`: the pointer is `NULL`). -/
abbrev KeyPairMem := KeyField → Option Buffer

/-- Outcome of `sgx_create_rsa_key_pair`: the returned status, the caller's memory after the
call, the provider calls made, and for every copy that `BN_bn2lebinpad` performed the
destination and the number of bytes written. -/
structure KeyPairResult where
  ret_code : Status
  mem : KeyPairMem
  calls : List Call
  copied : List (KeyField × Nat)

/-- The condition of lines 136-143: the copies are the operands of a short-circuit `||`, each
`!BN_bn2lebinpad(bn, ptr, BN_num_bytes(bn))`.  Returns whether the condition is true (the
source then breaks), the memory and the copies performed. -/
def copy_fields : List (KeyField × Nat) → KeyPairMem → Bool × KeyPairMem × List (KeyField × Nat)
  | [], mem => (false, mem, [])
  | (f, v) :: rest, mem =>
    let r := BN_bn2lebinpad v ((mem f).getD []) (BN_num_bytes v)
    let mem1 := Function.update mem f (some r.2)
    let log := if r.1 = -1 then [] else [(f, BN_num_bytes v)]
    if r.1 = 0 then (true, mem1, log)
    else
      let t := copy_fields rest mem1
      (t.1, t.2.1, log ++ t.2.2)

/-- The provider calls of `k` evaluated operands of lines 136-143. -/
def copy_calls (k : Nat) : List Call :=
  (List.replicate k [Call.BN_num_bytes, Call.BN_bn2lebinpad]).flatten

/-- Embedding of `sgx_create_rsa_key_pair` (lines 84-156). -/
def sgx_create_rsa_key_pair (pv : KeyPairProvider) (n_byte_size e_byte_size : Int)
    (mem : KeyPairMem) : KeyPairResult :=
  if n_byte_size ≤ 0 ∨ e_byte_size ≤ 0 ∨ mem .n = none ∨ mem .d = none ∨ mem .e = none ∨
      mem .p = none ∨ mem .q = none ∨ mem .dmp1 = none ∨ mem .dmq1 = none ∨
      mem .iqmp = none then
    { ret_code := .ERROR_INVALID_PARAMETER, mem := mem, calls := [], copied := [] }
  else if pv.RSA_new_ok = false then
    -- rsa_ctx == NULL: ret_code = ERROR_OUT_OF_MEMORY; break; then the two frees
    { ret_code := .ERROR_OUT_OF_MEMORY, mem := mem,
      calls := [.RSA_new, .RSA_free, .BN_clear_free], copied := [] }
  else
    let tmp_bn_e := BN_lebin2bn ((mem .e).getD []) e_byte_size.toNat
    match pv.RSA_generate_key_ex (n_byte_size * 8) tmp_bn_e with
    | none =>
      { ret_code := .ERROR_UNEXPECTED, mem := mem,
        calls := [.RSA_new, .BN_lebin2bn, .RSA_generate_key_ex, .RSA_free, .BN_clear_free],
        copied := [] }
    | some key =>
      let gen_rsa_size : Int := (BN_num_bytes key.n : Int)
      if gen_rsa_size ≠ n_byte_size then
        { ret_code := .ERROR_UNEXPECTED, mem := mem,
          calls := [.RSA_new, .BN_lebin2bn, .RSA_generate_key_ex, .RSA_size, .RSA_free,
                    .BN_clear_free],
          copied := [] }
      else
        let t := copy_fields
          [(.n, key.n), (.d, key.d), (.e, tmp_bn_e), (.p, key.p), (.q, key.q),
           (.dmp1, key.dmp1), (.dmq1, key.dmq1), (.iqmp, key.iqmp)] mem
        { ret_code := if t.1 then .ERROR_UNEXPECTED else .SUCCESS,
          mem := t.2.1,
          calls := [.RSA_new, .BN_lebin2bn, .RSA_generate_key_ex, .RSA_size, .RSA_get0_key,
                    .RSA_get0_factors, .RSA_get0_crt_params] ++
                   copy_calls t.2.2.length ++
                   [.RSA_free, .BN_clear_free],
          copied := t.2.2 }

/-- The declared capacity of each output buffer of `sgx_create_rsa_key_pair`: `m` bytes for
`n` and `d`, `k` bytes for `e`, `m/2` bytes for the factors and CRT values (spec, section 3
and 4.1; `main` passes such buffers or larger). -/
def capacity (m k : Nat) : KeyField → Nat
  | .n => m
  | .d => m
  | .e => k
  | _ => m / 2

/-! ## Provider arithmetic used by `sgx_create_rsa_priv2_key` -/

/-- The loop of the provider's `BN_mod_inverse`: Euclid's algorithm on `(A, B)` with the
unsigned cofactors `X`, `Y` and the sign flag (`neg = true`: the sign is `-1`).  Each turn
does `D = A / B`, `M = A % B`, `(A, B) := (B, M)`, `(X, Y) := (D*X + Y, X)` and flips the
sign.  The result is `(A, Y, neg)` when `B` reaches zero; `fuel` bounds the number of turns
(`modInverseLoop_isSome`: `B + 1` turns are enough). -/
def modInverseLoop : Nat → Nat → Nat → Nat → Nat → Bool → Option (Nat × Nat × Bool)
  | 0, _, _, _, _, _ => none
  | fuel + 1, A, B, X, Y, neg =>
    if B = 0 then some (A, Y, neg)
    else modInverseLoop fuel B (A % B) (A / B * X + Y) X (!neg)

/-- Provider call `BN_nnmod(r, m, d, ctx)` when `r` and `d` are the same object, as happens
inside the source's `BN_mod_inverse(d, e, d, tmp_ctx)`.  Provider releases that check for the
alias (`alias_check = true`) fail.  Older ones compute the truncated remainder into `r`,
which also overwrites `d`; a negative remainder is then corrected by itself and becomes
zero. -/
def BN_nnmod_aliased (alias_check : Bool) (m d : Int) : Option Int :=
  if alias_check then none
  else if Int.tmod m d < 0 then some 0
  else some (Int.tmod m d)

/-- Provider call `BN_mod_inverse(r, a, n, ctx)` with `r` and `n` the same object, as the
source calls it (line 212).  Follows the provider's routine: `NULL` for `n = 0` and
`|n| = 1`; Euclid's loop on `A = |n|`, `B = a mod |n|`; after the loop `Y := n - Y` when
the sign is negative; no inverse unless `A = 1`; the result is `Y` when
`0 ≤ Y` and `|Y| < |n|`, and otherwise `BN_nnmod(r, Y, n)` on the aliased result. -/
def BN_mod_inverse (alias_check : Bool) (a n : Int) : Option Int :=
  let m := n.natAbs
  if m = 0 ∨ m = 1 then none
  else
    match modInverseLoop (m + 1) m (a % (m : Int)).toNat 1 0 true with
    | none => none
    | some (A, Y, neg) =>
      let Y1 : Int := if neg then n - (Y : Int) else (Y : Int)
      if A = 1 then
        if 0 ≤ Y1 ∧ Y1.natAbs < m then some Y1
        else BN_nnmod_aliased alias_check Y1 n
      else none

/-! ## Key objects and the three constructors -/

/-- The RSA object behind a key handle: each component is a `BIGNUM *` (`none`: unset). -/
structure RSAKey where
  n : Option Int
  e : Option Int
  d : Option Int
  p : Option Int
  q : Option Int
  dmp1 : Option Int
  dmq1 : Option Int
  iqmp : Option Int
  deriving DecidableEq, Repr

/-- Objects a constructor allocates through the provider, named after the local variable
that holds them. -/
inductive Obj
  | n | e | d | p | q | dmp1 | dmq1 | iqmp | tmp_ctx | rsa_ctx | rsa_key
  deriving DecidableEq, Repr

/-- The provider as seen by the key constructors: which fallible calls succeed.  The
big-number flags stand for failures of the call for reasons outside the arithmetic (memory);
`BN_mod_inverse` fails in addition when there is no inverse.  `BN_nnmod_alias_check` tells
whether the provider's `BN_nnmod` refuses a result that aliases the modulus (see
`BN_nnmod_aliased`). -/
structure CtorProvider where
  BN_nnmod_alias_check : Bool
  BN_mul_ok : Bool
  BN_sub_p_ok : Bool
  BN_sub_q_ok : Bool
  BN_add_word_ok : Bool
  BN_mod_inverse_ok : Bool
  RSA_new_ok : Bool
  EVP_PKEY_new_ok : Bool
  EVP_PKEY_assign_RSA_ok : Bool
  RSA_set0_factors_ok : Bool
  RSA_set0_crt_params_ok : Bool
  RSA_set0_key_ok : Bool

/-- Outcome of a key constructor: the status, the handle slot `*new_key` after the call
(`none`: the slot pointer is `NULL`; `some none`: the slot holds `NULL`), the provider calls
made, and the objects allocated and released, in order (an object released through its owner
is listed when the owner is released). -/
structure CtorResult where
  ret_code : Status
  slot : Option (Option RSAKey)
  calls : List Call
  allocated : List Obj
  released : List Obj

/-- Local state of `sgx_create_rsa_priv2_key` when control leaves the `do ... while (0)`
block (line 256).  `rsa_key` and `d` tell whether the local pointer is non-null;
`pkey_owns_rsa` and `rsa_owns` record the ownership the provider took over. -/
structure Priv2Locals where
  ret_code : Status
  rsa_memory_manager : Bool
  rsa_key : Bool
  d : Bool
  pkey_owns_rsa : Bool
  rsa_owns : List Obj
  slot : Option (Option RSAKey)
  calls : List Call
  allocated : List Obj
  released : List Obj

/-- Lines 216-255 of `sgx_create_rsa_priv2_key`: the key objects are created and the big
numbers handed over.  `key` holds the values computed so far, `calls4` and `allocated1` the
provider calls and allocations made before line 216.  Each exit gives the local state at that
point. -/
def priv2_install (pv : CtorProvider) (new_pri_key2 : Option (Option RSAKey)) (key : RSAKey)
    (calls4 : List Call) (allocated1 : List Obj) : Priv2Locals :=
  -- lines 218-219: rsa_ctx = RSA_new(); rsa_key = EVP_PKEY_new()
  let calls5 := calls4 ++ [Call.RSA_new, .EVP_PKEY_new]
  let allocated5 := allocated1 ++ (if pv.RSA_new_ok then [Obj.rsa_ctx] else []) ++
    (if pv.EVP_PKEY_new_ok then [Obj.rsa_key] else [])
  -- line 223: rsa_ctx == NULL || rsa_key == NULL || !EVP_PKEY_assign_RSA(...)
  if pv.RSA_new_ok = false ∨ pv.EVP_PKEY_new_ok = false then
    -- lines 224-226: RSA_free(rsa_ctx); rsa_key = NULL; break
    { ret_code := .ERROR_UNEXPECTED, rsa_memory_manager := false, rsa_key := false,
      d := true, pkey_owns_rsa := false, rsa_owns := [], slot := new_pri_key2,
      calls := calls5 ++ [.RSA_free], allocated := allocated5,
      released := if pv.RSA_new_ok then [Obj.rsa_ctx] else [] }
  else if pv.EVP_PKEY_assign_RSA_ok = false then
    { ret_code := .ERROR_UNEXPECTED, rsa_memory_manager := false, rsa_key := false,
      d := true, pkey_owns_rsa := false, rsa_owns := [], slot := new_pri_key2,
      calls := calls5 ++ [.EVP_PKEY_assign_RSA, .RSA_free], allocated := allocated5,
      released := [Obj.rsa_ctx] }
  else
    let calls6 := calls5 ++ [Call.EVP_PKEY_assign_RSA, .RSA_set0_factors]
    -- line 233: if (!RSA_set0_factors(rsa_ctx, p, q)) break
    if pv.RSA_set0_factors_ok = false then
      { ret_code := .ERROR_UNEXPECTED, rsa_memory_manager := false, rsa_key := true,
        d := true, pkey_owns_rsa := true, rsa_owns := [], slot := new_pri_key2,
        calls := calls6, allocated := allocated5, released := [] }
    else
      -- line 236: rsa_memory_manager = 1
      let calls7 := calls6 ++ [Call.RSA_set0_crt_params]
      -- line 237
      if pv.RSA_set0_crt_params_ok = false then
        { ret_code := .ERROR_UNEXPECTED, rsa_memory_manager := true, rsa_key := true,
          d := true, pkey_owns_rsa := true, rsa_owns := [.p, .q], slot := new_pri_key2,
          calls := calls7 ++ List.replicate 6 Call.BN_clear_free,
          allocated := allocated5,
          released := [.n, .e, .d, .dmp1, .dmq1, .iqmp] }
      else
        let calls8 := calls7 ++ [Call.RSA_set0_key]
        -- line 247
        if pv.RSA_set0_key_ok = false then
          { ret_code := .ERROR_UNEXPECTED, rsa_memory_manager := true, rsa_key := true,
            d := true, pkey_owns_rsa := true, rsa_owns := [.p, .q, .dmp1, .dmq1, .iqmp],
            slot := new_pri_key2,
            calls := calls8 ++ List.replicate 3 Call.BN_clear_free,
            allocated := allocated5, released := [.n, .e, .d] }
        else
          -- lines 254-255: *new_pri_key2 = rsa_key; ret_code = SUCCESS
          { ret_code := .SUCCESS, rsa_memory_manager := true, rsa_key := true,
            d := true, pkey_owns_rsa := true,
            rsa_owns := [.p, .q, .dmp1, .dmq1, .iqmp, .n, .e, .d],
            slot := new_pri_key2.map (fun _ => some key),
            calls := calls8, allocated := allocated5, released := [] }

/-- The local state when the block of `sgx_create_rsa_priv2_key` is left during the
arithmetic of lines 195-214: no key object exists yet. -/
def priv2_break (new_pri_key2 : Option (Option RSAKey)) (d : Bool) (calls : List Call)
    (allocated : List Obj) : Priv2Locals :=
  { ret_code := .ERROR_UNEXPECTED, rsa_memory_manager := false, rsa_key := false, d := d,
    pkey_owns_rsa := false, rsa_owns := [], slot := new_pri_key2, calls := calls,
    allocated := allocated, released := [] }

/-- Lines 182-256 of `sgx_create_rsa_priv2_key`: the `do ... while (0)` block, after the
parameter check has passed. -/
def priv2_body (pv : CtorProvider) (mod_size exp_size : Int)
    (p_rsa_key_e p_rsa_key_p p_rsa_key_q p_rsa_key_dmp1 p_rsa_key_dmq1 p_rsa_key_iqmp : Buffer)
    (new_pri_key2 : Option (Option RSAKey)) : Priv2Locals :=
  let half := (mod_size / 2).toNat
  -- lines 183-193
  let p : Int := (BN_lebin2bn p_rsa_key_p half : Nat)
  let q : Int := (BN_lebin2bn p_rsa_key_q half : Nat)
  let dmp1 : Int := (BN_lebin2bn p_rsa_key_dmp1 half : Nat)
  let dmq1 : Int := (BN_lebin2bn p_rsa_key_dmq1 half : Nat)
  let iqmp : Int := (BN_lebin2bn p_rsa_key_iqmp half : Nat)
  let e : Int := (BN_lebin2bn p_rsa_key_e exp_size.toNat : Nat)
  let calls0 := [Call.BN_CTX_new, .BN_new, .BN_lebin2bn, .BN_lebin2bn, .BN_lebin2bn,
    .BN_lebin2bn, .BN_lebin2bn, .BN_lebin2bn, .BN_mul]
  let allocated0 := [Obj.tmp_ctx, .n, .p, .q, .dmp1, .dmq1, .iqmp, .e]
  -- line 197: if (!BN_mul(n, p, q, tmp_ctx)) break
  if pv.BN_mul_ok = false then priv2_break new_pri_key2 false calls0 allocated0
  else
    let n : Int := p * q
    -- lines 205-210: d = BN_dup(n), the two BN_set_flags
    let d0 : Int := n
    let allocated1 := allocated0 ++ [Obj.d]
    let calls1 := calls0 ++ [Call.BN_dup, .BN_set_flags, .BN_set_flags, .BN_sub]
    -- line 212, a short-circuit chain: !BN_sub(d, d, p)
    if pv.BN_sub_p_ok = false then priv2_break new_pri_key2 true calls1 allocated1
    else
      let d1 : Int := d0 - p
      let calls2 := calls1 ++ [Call.BN_sub]
      -- !BN_sub(d, d, q)
      if pv.BN_sub_q_ok = false then priv2_break new_pri_key2 true calls2 allocated1
      else
        let d2 : Int := d1 - q
        let calls3 := calls2 ++ [Call.BN_add_word]
        -- !BN_add_word(d, 1)
        if pv.BN_add_word_ok = false then priv2_break new_pri_key2 true calls3 allocated1
        else
          let d3 : Int := d2 + 1
          let calls4 := calls3 ++ [Call.BN_mod_inverse]
          -- !BN_mod_inverse(d, e, d, tmp_ctx)
          match (if pv.BN_mod_inverse_ok = false then none
                 else BN_mod_inverse pv.BN_nnmod_alias_check e d3) with
          | none => priv2_break new_pri_key2 true calls4 allocated1
          | some d =>
            priv2_install pv new_pri_key2
              { n := some n, e := some e, d := some d, p := some p, q := some q,
                dmp1 := some dmp1, dmq1 := some dmq1, iqmp := some iqmp }
              calls4 allocated1

/-- Lines 258-279 of `sgx_create_rsa_priv2_key`: the code after the block.  `BN_clear_free`
and `EVP_PKEY_free` do nothing on a null pointer; `EVP_PKEY_free` on a key object releases
the RSA object assigned to it, which releases the big numbers it was given. -/
def priv2_exit (L : Priv2Locals) : CtorResult :=
  let calls1 := L.calls ++ [Call.BN_CTX_free]
  let released1 := L.released ++ [Obj.tmp_ctx]
  if L.ret_code ≠ .SUCCESS then
    let calls2 :=
      if L.rsa_memory_manager = false then calls1 ++ List.replicate 8 Call.BN_clear_free
      else calls1
    let released2 :=
      if L.rsa_memory_manager = false then
        released1 ++ [Obj.n, .e] ++ (if L.d then [Obj.d] else []) ++ [.dmp1, .dmq1, .iqmp, .q, .p]
      else released1
    { ret_code := L.ret_code, slot := L.slot,
      calls := calls2 ++ [.EVP_PKEY_free],
      allocated := L.allocated,
      released := released2 ++
        (if L.rsa_key then
          [Obj.rsa_key] ++ (if L.pkey_owns_rsa then [Obj.rsa_ctx] ++ L.rsa_owns else [])
         else []) }
  else
    { ret_code := L.ret_code, slot := L.slot, calls := calls1, allocated := L.allocated,
      released := released1 }

/-- Embedding of `sgx_create_rsa_priv2_key` (lines 158-280). -/
def sgx_create_rsa_priv2_key (pv : CtorProvider) (mod_size exp_size : Int)
    (p_rsa_key_e p_rsa_key_p p_rsa_key_q p_rsa_key_dmp1 p_rsa_key_dmq1 p_rsa_key_iqmp :
      Option Buffer)
    (new_pri_key2 : Option (Option RSAKey)) : CtorResult :=
  if mod_size ≤ 0 ∨ exp_size ≤ 0 ∨ new_pri_key2 = none ∨ p_rsa_key_e = none ∨
      p_rsa_key_p = none ∨ p_rsa_key_q = none ∨ p_rsa_key_dmp1 = none ∨
      p_rsa_key_dmq1 = none ∨ p_rsa_key_iqmp = none then
    { ret_code := .ERROR_INVALID_PARAMETER, slot := new_pri_key2, calls := [], allocated := [],
      released := [] }
  else
    priv2_exit (priv2_body pv mod_size exp_size (p_rsa_key_e.getD []) (p_rsa_key_p.getD [])
      (p_rsa_key_q.getD []) (p_rsa_key_dmp1.getD []) (p_rsa_key_dmq1.getD [])
      (p_rsa_key_iqmp.getD []) new_pri_key2)

/-- Embedding of `sgx_create_rsa_pub1_key` (lines 282-329). -/
def sgx_create_rsa_pub1_key (pv : CtorProvider) (mod_size exp_size : Int)
    (le_n le_e : Option Buffer) (new_pub_key1 : Option (Option RSAKey)) : CtorResult :=
  if new_pub_key1 = none ∨ mod_size ≤ 0 ∨ exp_size ≤ 0 ∨ le_n = none ∨ le_e = none then
    { ret_code := .ERROR_INVALID_PARAMETER, slot := new_pub_key1, calls := [], allocated := [],
      released := [] }
  else
    -- lines 297-303
    let n : Int := (BN_lebin2bn (le_n.getD []) mod_size.toNat : Nat)
    let e : Int := (BN_lebin2bn (le_e.getD []) exp_size.toNat : Nat)
    let calls0 := [Call.BN_lebin2bn, .BN_lebin2bn, .RSA_new, .EVP_PKEY_new]
    let allocated0 := [Obj.n, .e] ++ (if pv.RSA_new_ok then [Obj.rsa_ctx] else []) ++
      (if pv.EVP_PKEY_new_ok then [Obj.rsa_key] else [])
    -- line 305
    if pv.RSA_new_ok = false ∨ pv.EVP_PKEY_new_ok = false then
      -- RSA_free(rsa_ctx); rsa_ctx = NULL; break; then lines 322-326
      { ret_code := .ERROR_UNEXPECTED, slot := new_pub_key1,
        calls := calls0 ++ [.RSA_free, .EVP_PKEY_free, .BN_clear_free, .BN_clear_free],
        allocated := allocated0,
        released := (if pv.RSA_new_ok then [Obj.rsa_ctx] else []) ++
          (if pv.EVP_PKEY_new_ok then [Obj.rsa_key] else []) ++ [.n, .e] }
    else if pv.EVP_PKEY_assign_RSA_ok = false then
      { ret_code := .ERROR_UNEXPECTED, slot := new_pub_key1,
        calls := calls0 ++ [.EVP_PKEY_assign_RSA, .RSA_free, .EVP_PKEY_free, .BN_clear_free,
                            .BN_clear_free],
        allocated := allocated0,
        released := [.rsa_ctx, .rsa_key, .n, .e] }
    -- line 315
    else if pv.RSA_set0_key_ok = false then
      { ret_code := .ERROR_UNEXPECTED, slot := new_pub_key1,
        calls := calls0 ++ [.EVP_PKEY_assign_RSA, .RSA_set0_key, .EVP_PKEY_free, .BN_clear_free,
                            .BN_clear_free],
        allocated := allocated0,
        released := [.rsa_key, .rsa_ctx, .n, .e] }
    else
      -- lines 318-319
      { ret_code := .SUCCESS,
        slot := new_pub_key1.map (fun _ =>
          some { n := some n, e := some e, d := none, p := none, q := none, dmp1 := none,
                 dmq1 := none, iqmp := none }),
        calls := calls0 ++ [.EVP_PKEY_assign_RSA, .RSA_set0_key],
        allocated := allocated0,
        released := [] }

/-- Embedding of `sgx_create_rsa_priv1_key` (lines 449-504). -/
def sgx_create_rsa_priv1_key (pv : CtorProvider) (n_byte_size e_byte_size d_byte_size : Int)
    (le_n le_e le_d : Option Buffer) (new_pri_key1 : Option (Option RSAKey)) : CtorResult :=
  if n_byte_size ≤ 0 ∨ e_byte_size ≤ 0 ∨ d_byte_size ≤ 0 ∨ new_pri_key1 = none ∨
      le_n = none ∨ le_e = none ∨ le_d = none then
    { ret_code := .ERROR_INVALID_PARAMETER, slot := new_pri_key1, calls := [], allocated := [],
      released := [] }
  else
    -- lines 467-474
    let n : Int := (BN_lebin2bn (le_n.getD []) n_byte_size.toNat : Nat)
    let e : Int := (BN_lebin2bn (le_e.getD []) e_byte_size.toNat : Nat)
    let d : Int := (BN_lebin2bn (le_d.getD []) d_byte_size.toNat : Nat)
    let calls0 := [Call.BN_lebin2bn, .BN_lebin2bn, .BN_lebin2bn, .RSA_new, .EVP_PKEY_new]
    let allocated0 := [Obj.n, .e, .d] ++ (if pv.RSA_new_ok then [Obj.rsa_ctx] else []) ++
      (if pv.EVP_PKEY_new_ok then [Obj.rsa_key] else [])
    -- line 478
    if pv.RSA_new_ok = false ∨ pv.EVP_PKEY_new_ok = false then
      -- RSA_free(rsa_ctx); rsa_ctx = NULL; break; then lines 496-501
      { ret_code := .ERROR_UNEXPECTED, slot := new_pri_key1,
        calls := calls0 ++ [.RSA_free, .EVP_PKEY_free, .BN_clear_free, .BN_clear_free,
                            .BN_clear_free],
        allocated := allocated0,
        released := (if pv.RSA_new_ok then [Obj.rsa_ctx] else []) ++
          (if pv.EVP_PKEY_new_ok then [Obj.rsa_key] else []) ++ [.n, .e, .d] }
    else if pv.EVP_PKEY_assign_RSA_ok = false then
      { ret_code := .ERROR_UNEXPECTED, slot := new_pri_key1,
        calls := calls0 ++ [.EVP_PKEY_assign_RSA, .RSA_free, .EVP_PKEY_free, .BN_clear_free,
                            .BN_clear_free, .BN_clear_free],
        allocated := allocated0,
        released := [.rsa_ctx, .rsa_key, .n, .e, .d] }
    -- line 488
    else if pv.RSA_set0_key_ok = false then
      { ret_code := .ERROR_UNEXPECTED, slot := new_pri_key1,
        calls := calls0 ++ [.EVP_PKEY_assign_RSA, .RSA_set0_key, .EVP_PKEY_free, .BN_clear_free,
                            .BN_clear_free, .BN_clear_free],
        allocated := allocated0,
        released := [.rsa_key, .rsa_ctx, .n, .e, .d] }
    else
      -- lines 492-493
      { ret_code := .SUCCESS,
        slot := new_pri_key1.map (fun _ =>
          some { n := some n, e := some e, d := some d, p := none, q := none, dmp1 := none,
                 dmq1 := none, iqmp := none }),
        calls := calls0 ++ [.EVP_PKEY_assign_RSA, .RSA_set0_key],
        allocated := allocated0,
        released := [] }

/-! ## OAEP-SHA256 encryption and decryption -/

/-- Which of the two facade functions: `sgx_rsa_pub_encrypt_sha256` or
`sgx_rsa_priv_decrypt_sha256`. -/
inductive Direction
  | encrypt | decrypt
  deriving DecidableEq, Repr

/-- Provider function `EVP_PKEY_size` for an RSA key (`RSA_size`): the byte length of the
modulus. -/
def EVP_PKEY_size (key : RSAKey) : Nat :=
  BN_num_bytes (key.n.getD 0).natAbs

/-- The RSA padding modes an `EVP_PKEY_CTX` can be in, as far as the source is concerned: the
provider's default and the one the source selects. -/
inductive Padding
  | RSA_PKCS1_PADDING | RSA_PKCS1_OAEP_PADDING
  deriving DecidableEq, Repr

/-- Message digests: the provider's default for OAEP and the one the source selects. -/
inductive Digest
  | sha1 | sha256
  deriving DecidableEq, Repr

/-- Provider function `EVP_MD_size`: the output length of a digest in bytes. -/
def EVP_MD_size : Digest → Nat
  | .sha1 => 20
  | .sha256 => 32

/-- Provider call `EVP_sha256()`. -/
def EVP_sha256 : Digest := .sha256

/-- The state of an `EVP_PKEY_CTX` that the facade functions touch: the key, the padding mode
and the OAEP digest (which is also the MGF1 digest unless one is set, and the source sets
none). -/
structure EVP_PKEY_CTX where
  pkey : RSAKey
  pad_mode : Padding
  md : Digest
  deriving DecidableEq, Repr

/-- Provider call `EVP_PKEY_CTX_new(pkey, NULL)` followed by the `_init` call: a context in
the provider's defaults, PKCS#1 v1.5 padding and SHA-1. -/
def EVP_PKEY_CTX_new (pkey : RSAKey) : EVP_PKEY_CTX :=
  { pkey := pkey, pad_mode := .RSA_PKCS1_PADDING, md := .sha1 }

/-- Provider call `EVP_PKEY_CTX_set_rsa_padding(ctx, pad)`; the source ignores its return
value. -/
def EVP_PKEY_CTX_set_rsa_padding (ctx : EVP_PKEY_CTX) (pad : Padding) : EVP_PKEY_CTX :=
  { ctx with pad_mode := pad }

/-- Provider call `EVP_PKEY_CTX_set_rsa_oaep_md(ctx, md)`: sets the digest when the padding
mode is OAEP and is an error, leaving the context as it was, otherwise; the source ignores its
return value. -/
def EVP_PKEY_CTX_set_rsa_oaep_md (ctx : EVP_PKEY_CTX) (md : Digest) : EVP_PKEY_CTX :=
  if ctx.pad_mode = .RSA_PKCS1_OAEP_PADDING then { ctx with md := md } else ctx

/-- The provider as seen by the two facade functions.  What is arithmetic or randomness
inside the provider is a parameter: the RSA primitives `x ↦ x^e mod n` and `x ↦ x^d mod n`,
the digest, the mask generation function MGF1, the random seed (`none`: `RAND_bytes`
failed), and the whole operation under the default padding, which the source never uses.
`scratch` is what a failed operation leaves in the output buffer.  The padding layer itself
(RFC 8017, section 7.1) is embedded below. -/
structure CipherProvider where
  EVP_PKEY_CTX_new_ok : Bool
  init_ok : Direction → Bool
  rsa_public : RSAKey → Nat → Nat
  rsa_private : RSAKey → Nat → Nat
  digest : Digest → List Byte → List Byte
  mgf1 : Digest → List Byte → Nat → List Byte
  rand_bytes : Nat → Option (List Byte)
  pkcs1_v15 : Direction → RSAKey → List Byte → Option (List Byte)
  scratch : Direction → RSAKey → List Byte → Buffer → Buffer

/-- Provider call `BN_bin2bn`: the value of a byte string read most-significant byte
first. -/
def BN_bin2bn (s : List Byte) : Nat :=
  leValue s.reverse

/-- Provider call `BN_bn2binpad(a, to, tolen)`: `a` in exactly `tolen` bytes, most
significant first; fails when `a` needs more. -/
def BN_bn2binpad (a : Nat) (tolen : Nat) : Option (List Byte) :=
  if tolen < BN_num_bytes a then none else some (leBytes a tolen).reverse

/-- Bytewise exclusive or of a string with a mask. -/
def xorBytes (s mask : List Byte) : List Byte :=
  List.zipWith (fun x y => x ^^^ y) s mask

/-- Provider routine `RSA_padding_add_PKCS1_OAEP_mgf1` with an empty label: the encoded
message `00 || maskedSeed || maskedDB` of `k` bytes, where
`DB = lHash || 00 .. 00 || 01 || M`; fails when `M` is longer than `k - 2*hLen - 2`. -/
def RSA_padding_add_PKCS1_OAEP_mgf1 (pv : CipherProvider) (md : Digest) (k : Nat)
    (M : List Byte) : Option (List Byte) :=
  let mdlen := EVP_MD_size md
  if k < M.length + 2 * mdlen + 2 then none
  else
    let db := pv.digest md [] ++ List.replicate (k - M.length - 2 * mdlen - 2) 0 ++ [1] ++ M
    match pv.rand_bytes mdlen with
    | none => none
    | some seed =>
      let maskedDB := xorBytes db (pv.mgf1 md seed (k - mdlen - 1))
      let maskedSeed := xorBytes seed (pv.mgf1 md maskedDB mdlen)
      some ([0] ++ maskedSeed ++ maskedDB)

/-- The scan of `RSA_padding_check_PKCS1_OAEP_mgf1` over `DB` behind `lHash`: zero bytes up to
the first non-zero byte, which must be `01`; the message is what follows it. -/
def oaep_message : List Byte → Option (List Byte)
  | [] => none
  | b :: bs => if b = 0 then oaep_message bs else if b = 1 then some bs else none

/-- Provider routine `RSA_padding_check_PKCS1_OAEP_mgf1` with an empty label on an encoded
message `em` for a `k`-byte modulus: unmask seed and `DB`, check the leading zero byte and
`lHash`, and return the message behind the `01` separator. -/
def RSA_padding_check_PKCS1_OAEP_mgf1 (pv : CipherProvider) (md : Digest) (k : Nat)
    (em : List Byte) : Option (List Byte) :=
  let mdlen := EVP_MD_size md
  if k < 2 * mdlen + 2 then none
  else
    let maskedSeed := (em.drop 1).take mdlen
    let maskedDB := em.drop (1 + mdlen)
    let seed := xorBytes maskedSeed (pv.mgf1 md maskedDB mdlen)
    let db := xorBytes maskedDB (pv.mgf1 md seed (k - mdlen - 1))
    if em.head? = some 0 ∧ db.take mdlen = pv.digest md [] then oaep_message (db.drop mdlen)
    else none

/-- The provider's RSA operation with OAEP padding (`pkey_rsa_encrypt`, `pkey_rsa_decrypt`):
encryption encodes the message, applies the public primitive and writes the result in `k`
bytes; decryption refuses an input longer than `k` bytes or not below the modulus, applies
the private primitive, writes the result in `k` bytes and decodes it. -/
def rsa_oaep (pv : CipherProvider) (dir : Direction) (md : Digest) (key : RSAKey)
    (input : List Byte) : Option (List Byte) :=
  let k := EVP_PKEY_size key
  let n := (key.n.getD 0).natAbs
  match dir with
  | .encrypt =>
    match RSA_padding_add_PKCS1_OAEP_mgf1 pv md k input with
    | none => none
    | some em =>
      if n ≤ BN_bin2bn em then none
      else BN_bn2binpad (pv.rsa_public key (BN_bin2bn em)) k
  | .decrypt =>
    if k < input.length then none
    else if n ≤ BN_bin2bn input then none
    else
      match BN_bn2binpad (pv.rsa_private key (BN_bin2bn input)) k with
      | none => none
      | some em => RSA_padding_check_PKCS1_OAEP_mgf1 pv md k em

/-- Provider calls `EVP_PKEY_encrypt` and `EVP_PKEY_decrypt` `(ctx, out, outlen, in, inlen)` for
an RSA key: the return value, the output buffer and `*outlen` after the call.  With `out`
null the call stores the key size in `*outlen` and returns 1; with `*outlen` below the key
size it returns 0; otherwise it runs the operation the context's padding mode selects, and on
success writes the result at `out` and its length to `*outlen`. -/
def EVP_PKEY_crypt (pv : CipherProvider) (dir : Direction) (ctx : EVP_PKEY_CTX)
    (out : Option Buffer) (outlen : Nat) (input : List Byte) : Int × Option Buffer × Nat :=
  let pksize := EVP_PKEY_size ctx.pkey
  if pksize = 0 then (0, out, outlen)
  else
    match out with
    | none => (1, none, pksize)
    | some buf =>
      if outlen < pksize then (0, some buf, outlen)
      else
        match (match ctx.pad_mode with
               | .RSA_PKCS1_OAEP_PADDING => rsa_oaep pv dir ctx.md ctx.pkey input
               | .RSA_PKCS1_PADDING => pv.pkcs1_v15 dir ctx.pkey input) with
        | none => (-1, some (pv.scratch dir ctx.pkey input buf), outlen)
        | some r => (1, some (r ++ buf.drop r.length), r.length)

/-- Outcome of a facade call: the status, the output buffer and `*pout_len` after the call
(`none`: the pointer is `NULL`), and the provider calls made. -/
structure CipherResult where
  ret_code : Status
  pout_data : Option Buffer
  pout_len : Option Nat
  calls : List Call

/-- The provider's initialisation call for a direction. -/
def init_call : Direction → Call
  | .encrypt => .EVP_PKEY_encrypt_init
  | .decrypt => .EVP_PKEY_decrypt_init

/-- The provider's operation call for a direction. -/
def crypt_call : Direction → Call
  | .encrypt => .EVP_PKEY_encrypt
  | .decrypt => .EVP_PKEY_decrypt

/-- The common body of `sgx_rsa_pub_encrypt_sha256` (lines 331-389) and
`sgx_rsa_priv_decrypt_sha256` (lines 391-447), which differ only in the two provider calls
named by `dir`. -/
def rsa_crypt_sha256 (dir : Direction) (pv : CipherProvider) (rsa_key : Option RSAKey)
    (pout_data : Option Buffer) (pout_len : Option Nat) (pin_data : Option Buffer)
    (pin_len : Nat) : CipherResult :=
  if rsa_key = none ∨ pout_len = none ∨ pin_data = none ∨ pin_len < 1 ∨ pin_len ≥ INT_MAX then
    { ret_code := .ERROR_INVALID_PARAMETER, pout_data := pout_data, pout_len := pout_len,
      calls := [] }
  else
    let key := rsa_key.getD ⟨none, none, none, none, none, none, none, none⟩
    let input := (pin_data.getD []).take pin_len
    let len0 := pout_len.getD 0
    -- ctx == NULL || init(ctx) < 1
    if pv.EVP_PKEY_CTX_new_ok = false then
      { ret_code := .ERROR_UNEXPECTED, pout_data := pout_data, pout_len := pout_len,
        calls := [.EVP_PKEY_CTX_new, .EVP_PKEY_CTX_free] }
    else if pv.init_ok dir = false then
      { ret_code := .ERROR_UNEXPECTED, pout_data := pout_data, pout_len := pout_len,
        calls := [.EVP_PKEY_CTX_new, init_call dir, .EVP_PKEY_CTX_free] }
    else
      let calls0 := [Call.EVP_PKEY_CTX_new, init_call dir, .EVP_PKEY_CTX_set_rsa_padding,
        .EVP_sha256, .EVP_PKEY_CTX_set_rsa_oaep_md, crypt_call dir]
      -- the context of line 348 after the two settings of lines 356-357
      let ctx := EVP_PKEY_CTX_set_rsa_oaep_md
        (EVP_PKEY_CTX_set_rsa_padding (EVP_PKEY_CTX_new key) .RSA_PKCS1_OAEP_PADDING) EVP_sha256
      -- the length query: EVP_PKEY_xxcrypt(ctx, NULL, &data_len, pin_data, pin_len)
      let probe := EVP_PKEY_crypt pv dir ctx none 0 input
      let data_len := probe.2.2
      if probe.1 ≤ 0 then
        { ret_code := .ERROR_UNEXPECTED, pout_data := pout_data, pout_len := pout_len,
          calls := calls0 ++ [.EVP_PKEY_CTX_free] }
      else
        match pout_data with
        | none =>
          { ret_code := .SUCCESS, pout_data := none, pout_len := some data_len,
            calls := calls0 ++ [.EVP_PKEY_CTX_free] }
        | some buf =>
          if len0 < data_len then
            { ret_code := .ERROR_INVALID_PARAMETER, pout_data := some buf, pout_len := pout_len,
              calls := calls0 ++ [.EVP_PKEY_CTX_free] }
          else
            let fill := EVP_PKEY_crypt pv dir ctx (some buf) len0 input
            if fill.1 ≤ 0 then
              { ret_code := .ERROR_UNEXPECTED, pout_data := fill.2.1, pout_len := pout_len,
                calls := calls0 ++ [crypt_call dir, .EVP_PKEY_CTX_free] }
            else
              { ret_code := .SUCCESS, pout_data := fill.2.1, pout_len := some fill.2.2,
                calls := calls0 ++ [crypt_call dir, .EVP_PKEY_CTX_free] }

/-- Embedding of `sgx_rsa_pub_encrypt_sha256` (lines 331-389). -/
def sgx_rsa_pub_encrypt_sha256 (pv : CipherProvider) (rsa_key : Option RSAKey)
    (pout_data : Option Buffer) (pout_len : Option Nat) (pin_data : Option Buffer)
    (pin_len : Nat) : CipherResult :=
  rsa_crypt_sha256 .encrypt pv rsa_key pout_data pout_len pin_data pin_len

/-- Embedding of `sgx_rsa_priv_decrypt_sha256` (lines 391-447). -/
def sgx_rsa_priv_decrypt_sha256 (pv : CipherProvider) (rsa_key : Option RSAKey)
    (pout_data : Option Buffer) (pout_len : Option Nat) (pin_data : Option Buffer)
    (pin_len : Nat) : CipherResult :=
  rsa_crypt_sha256 .decrypt pv rsa_key pout_data pout_len pin_data pin_len

/-! ## Outcome predicate for `sgx_create_rsa_priv2_key` -/

/-- What the block of `sgx_create_rsa_priv2_key` can leave behind for the given arguments:
either success, with `key.n = p * q`, `key.d` the provider's inverse of `e` modulo
`p * q - p - q + 1`, both key objects allocated and the key stored in the handle slot; or
`ERROR_UNEXPECTED` with the slot as it was. -/
def Priv2Outcome (pv : CtorProvider) (mod_size exp_size : Int)
    (be bp bq bdmp1 bdmq1 biqmp : Buffer) (slot : Option (Option RSAKey))
    (L : Priv2Locals) : Prop :=
  let p : Int := (BN_lebin2bn bp (mod_size / 2).toNat : Nat)
  let q : Int := (BN_lebin2bn bq (mod_size / 2).toNat : Nat)
  let e : Int := (BN_lebin2bn be exp_size.toNat : Nat)
  (∃ d, BN_mod_inverse pv.BN_nnmod_alias_check e (p * q - p - q + 1) = some d ∧ L.ret_code = .SUCCESS ∧
      pv.RSA_new_ok = true ∧ pv.EVP_PKEY_new_ok = true ∧
      L.slot = slot.map (fun _ => some
        { n := some (p * q), e := some e, d := some d, p := some p, q := some q,
          dmp1 := some ((BN_lebin2bn bdmp1 (mod_size / 2).toNat : Nat) : Int),
          dmq1 := some ((BN_lebin2bn bdmq1 (mod_size / 2).toNat : Nat) : Int),
          iqmp := some ((BN_lebin2bn biqmp (mod_size / 2).toNat : Nat) : Int) })) ∨
  (L.ret_code = .ERROR_UNEXPECTED ∧ L.slot = slot)

/-! ## Concrete inputs used by the evaluations below -/

/-- A buffer of `k` bytes `0xFF`: memory the caller has not cleared. -/
def dirty (k : Nat) : Buffer :=
  List.replicate k 255

/-- A 512-bit key for `e = 65537` (two 256-bit primes, `p > q`, `d = e⁻¹ mod lcm(p-1, q-1)`):
its `dmq1 = d mod (q-1)` is 31 bytes long, one less than `m/2 = 32`. -/
def key512 : GeneratedKey :=
  { n := 0xa516aeb7c09973e716a785cae0c0a9963b9460f5792d6f49fd028aa8b6bbb5390f2dd6caa15743616b85de7465af7ee39b4a00884183c19f17539c108c3bd5d1,
    d := 0x819add1a6ff4b383fdca66c46f78d1aa9aa652630f4f16ca59fcb4d43476b393652768cce123ffff9658a653c90f9bd6ad0b693b8692713b85bb8dd049bc3b5,
    p := 0xd52063157d4e2388400bcf5c6b7080e1d125c5db2ccdb7b0b6480da0b793de0f,
    q := 0xc64c6f119ffc02744c7290cbe6539d0977b53f71da13326fb6089ea51afeee1f,
    dmp1 := 0x6b92b0506d71de3f6c4c49bad543f0d98a0e6dc285e7c3dabef6b96230a6c303,
    dmq1 := 0x2e79bb8e65f0aaa2974842a78754117a2694544a5ad2250009a9fb84b6cf09,
    iqmp := 0x8bfba9e468c41fac2e21adcf6466d3f6bdeb06cb3ca4acc55544dfa761f16034 }

/-- A provider whose key generation yields `key512`. -/
def provider512 : KeyPairProvider :=
  { RSA_new_ok := true, RSA_generate_key_ex := fun _ _ => some key512 }

/-- The exponent 65537 as the 8 bytes of a little-endian `long`, as `main` passes it. -/
def e65537_long : Buffer := [1, 0, 1, 0, 0, 0, 0, 0]

/-- Caller memory for `m = 64`, `k = 8`: the exponent and uncleared output buffers of the
declared widths. -/
def mem512 : KeyPairMem
  | .n => some (dirty 64)
  | .d => some (dirty 64)
  | .e => some e65537_long
  | _ => some (dirty 32)

/-- A 520-bit key for `e = 65537`: for `m = 65` bytes the provider splits the 520 bits into two
260-bit primes, which are 33 bytes long while `m/2 = 32`. -/
def key520 : GeneratedKey :=
  { n := 0xaab96e519ebad489801c17b2b26eaf72718ec6ca052fdfc60457896a1da825f5a74006369e34ca7ae45262a8504e9a71330e84872061241facf416f10c745a36a7,
    d := 0xbcaa3ee7a3ea03861034fb5b57244a6ec65f69ff46cc2916c325998dd34846ea9d044d3201d16f754323af1b9c2553950f1926e3c2b7080a6a4e8db549d389385,
    p := 0xdd69d231d684dc0dc52b199051a894ecec5c7b97e65f8ded70e9e799e816913db,
    q := 0xc564969304ec252c0485ba2780544977b2ad39b2de3f16b7867f91e12aa3a8825,
    dmp1 := 0xaa00e6737dd2e5636d507a8065329ba68e9534109dc220a77f5b198902bad12a1,
    dmq1 := 0x41a5211a45a1cefee38621916f711879b13740a0069f4e8bbc3402acb244790ed,
    iqmp := 0x6876a8570f6596a577b8f01e9feaf4a9d576fffd0716d83733ec026e86a0f0956 }

/-- A provider whose key generation yields `key520`. -/
def provider520 : KeyPairProvider :=
  { RSA_new_ok := true, RSA_generate_key_ex := fun _ _ => some key520 }

/-- Caller memory for `m = 65`, `k = 8`: buffers of the declared widths (`m/2 = 32`). -/
def mem520 : KeyPairMem
  | .n => some (dirty 65)
  | .d => some (dirty 65)
  | .e => some e65537_long
  | _ => some (dirty 32)

/-- A provider on which every fallible call of the constructors succeeds (a release whose
`BN_nnmod` checks for aliasing). -/
def allOk : CtorProvider :=
  { BN_nnmod_alias_check := true,
    BN_mul_ok := true, BN_sub_p_ok := true, BN_sub_q_ok := true, BN_add_word_ok := true,
    BN_mod_inverse_ok := true, RSA_new_ok := true, EVP_PKEY_new_ok := true,
    EVP_PKEY_assign_RSA_ok := true, RSA_set0_factors_ok := true,
    RSA_set0_crt_params_ok := true, RSA_set0_key_ok := true }

/-- A provider on which `RSA_new` returns `NULL` and every other call succeeds. -/
def rsaNewFails : CtorProvider :=
  { allOk with RSA_new_ok := false }

/-- The exponent 65537 in three little-endian bytes. -/
def e65537 : Buffer := [1, 0, 1]

/-- Constructor input for `mod_size = 4`: the primes `p = 49477`, `q = 49211` and the CRT
values `dmp1 = 27053`, `dmq1 = 13753`, `iqmp = 186` that belong to them for `e = 65537`, each
in `m/2 = 2` little-endian bytes. -/
def p32 : Buffer := [69, 193]

/-- See `p32`. -/
def q32 : Buffer := [59, 192]

/-- See `p32`. -/
def dmp1_32 : Buffer := [173, 105]

/-- See `p32`. -/
def dmq1_32 : Buffer := [185, 53]

/-- See `p32`. -/
def iqmp32 : Buffer := [186, 0]

/-- The modulus `49477 * 49211 = 2434812647` in `m = 4` little-endian bytes. -/
def n32 : Buffer := [231, 74, 32, 145]

/-- The 13 bytes of the string `"Hello World!"` with its terminating zero, as `main` passes
them. -/
def hello : List Byte := [72, 101, 108, 108, 111, 32, 87, 111, 114, 108, 100, 33, 0]

/-- A 2048-bit modulus: `EVP_PKEY_size` is 256 for a key with this `n`. -/
def n2048 : Int := 128 * 256 ^ 255 + 1

/-- A key handle with the modulus `n2048` and `e = 65537`; the facade functions look at no
other component. -/
def key2048 : RSAKey :=
  { n := some n2048, e := some 65537, d := none, p := none, q := none, dmp1 := none,
    dmq1 := none, iqmp := none }

/-- A provider for the facade functions on which the padding layer can be evaluated: the RSA
primitives are the identity, the digest and the mask generator return zero bytes, and the
random seed is zero.  Only the lengths of its results matter below. -/
def demoCipher : CipherProvider :=
  { EVP_PKEY_CTX_new_ok := true
    init_ok := fun _ => true
    rsa_public := fun _ x => x
    rsa_private := fun _ x => x
    digest := fun md _ => List.replicate (EVP_MD_size md) 0
    mgf1 := fun _ _ len => List.replicate len 0
    rand_bytes := fun len => some (List.replicate len 0)
    pkcs1_v15 := fun _ _ _ => none
    scratch := fun _ _ _ buf => buf }

/-- A 256-byte block of zero bytes: an output buffer, or a ciphertext-sized input. -/
def block256 : Buffer := List.replicate 256 0

/-! ## Lemmas on the marshaling functions -/

theorem numBytesAux_le_iff (fuel : Nat) : ∀ (a w : Nat), a ≤ fuel →
    (numBytesAux fuel a ≤ w ↔ a < 256 ^ w) := by
  induction fuel with
  | zero =>
    intro a w ha
    have h0 : a = 0 := by omega
    subst h0
    simp [numBytesAux]
  | succ fuel ih =>
    intro a w ha
    by_cases h0 : a = 0
    · subst h0
      simp [numBytesAux]
    · rw [numBytesAux, if_neg h0]
      cases w with
      | zero => simp; omega
      | succ w =>
        have hdiv : a / 256 ≤ fuel := by
          have : a / 256 < a := Nat.div_lt_self (by omega) (by decide)
          omega
        have := ih (a / 256) w hdiv
        rw [pow_succ, ← Nat.div_lt_iff_lt_mul (by decide : 0 < 256)]
        omega

theorem BN_num_bytes_le_iff (a w : Nat) : BN_num_bytes a ≤ w ↔ a < 256 ^ w :=
  numBytesAux_le_iff a a w (le_refl a)

theorem leValue_lt (l : List Byte) : leValue l < 256 ^ l.length := by
  induction l with
  | nil => simp [leValue]
  | cons b bs ih =>
    have hb : b.val < 256 := b.isLt
    simp only [leValue, List.length_cons, pow_succ]
    omega

theorem BN_lebin2bn_lt (s : Buffer) (len : Nat) : BN_lebin2bn s len < 256 ^ len := by
  unfold BN_lebin2bn
  have h1 := leValue_lt (s.take len)
  have h2 : (s.take len).length ≤ len := by simp
  exact lt_of_lt_of_le h1 (Nat.pow_le_pow_right (by decide) h2)

/-! ## Lemmas on the modular inverse -/

/-- The bound on the number of turns is never reached: the loop of `BN_mod_inverse` always
returns. -/
theorem modInverseLoop_isSome (fuel : Nat) : ∀ (A B X Y : Nat) (neg : Bool),
    B < fuel → (modInverseLoop fuel A B X Y neg).isSome = true := by
  induction fuel with
  | zero => intro A B X Y neg h; omega
  | succ fuel ih =>
    intro A B X Y neg hlt
    rw [modInverseLoop]
    split
    · simp
    · rename_i hB
      apply ih
      have : A % B < B := Nat.mod_lt _ (by omega)
      omega

/-- Invariants of the provider's loop: with `sg = -1` or `1` for the sign flag,
`sg*Y*a ≡ A` and `-sg*X*a ≡ B` modulo `m`, `A*X + B*Y = m`, `B < A` and `Y ≤ X`.  At the
end they give the congruence for the result and the bound `Y*A ≤ m`. -/
theorem modInverseLoop_inv (m : Nat) (a : Int) (fuel : Nat) :
    ∀ (A B X Y : Nat) (neg : Bool) (A1 Y1 : Nat) (neg1 : Bool),
    B < A → Y ≤ X → A * X + B * Y = m →
    (if neg then -1 else 1) * (Y : Int) * a ≡ (A : Int) [ZMOD (m : Int)] →
    -(if neg then -1 else 1) * (X : Int) * a ≡ (B : Int) [ZMOD (m : Int)] →
    modInverseLoop fuel A B X Y neg = some (A1, Y1, neg1) →
    (if neg1 then -1 else 1) * (Y1 : Int) * a ≡ (A1 : Int) [ZMOD (m : Int)] ∧
      Y1 * A1 ≤ m := by
  induction fuel with
  | zero => intro A B X Y neg A1 Y1 neg1 _ _ _ _ _ h; simp [modInverseLoop] at h
  | succ fuel ih =>
    intro A B X Y neg A1 Y1 neg1 hBA hYX hlin hc1 hc2 h
    rw [modInverseLoop] at h
    split at h
    · rename_i hB
      simp only [Option.some.injEq, Prod.mk.injEq] at h
      obtain ⟨h1, h2, h3⟩ := h
      subst h1; subst h2; subst h3
      refine ⟨hc1, ?_⟩
      subst hB
      have : A * X = m := by simpa using hlin
      calc Y * A ≤ X * A := Nat.mul_le_mul_right _ hYX
        _ = m := by rw [Nat.mul_comm]; exact this
    · rename_i hB
      have hBpos : 0 < B := by omega
      have hD : 1 ≤ A / B := Nat.div_pos (le_of_lt hBA) hBpos
      have hdm := Nat.div_add_mod A B
      refine ih B (A % B) (A / B * X + Y) X (!neg) A1 Y1 neg1 (Nat.mod_lt _ hBpos) ?_ ?_ ?_ ?_ h
      · calc X = 1 * X := by ring
          _ ≤ A / B * X := Nat.mul_le_mul_right _ hD
          _ ≤ A / B * X + Y := Nat.le_add_right _ _
      · calc B * (A / B * X + Y) + A % B * X = (B * (A / B) + A % B) * X + B * Y := by ring
          _ = A * X + B * Y := by rw [hdm]
          _ = m := hlin
      · have : (if (!neg) = true then (-1 : Int) else 1) * (X : Int) * a =
            -(if neg = true then (-1 : Int) else 1) * (X : Int) * a := by
          cases neg <;> simp
        rw [this]
        exact hc2
      · have hcast : ((A % B : Nat) : Int) = (A : Int) - ((A / B : Nat) : Int) * (B : Int) := by
          have h2 := congrArg (Nat.cast : Nat → Int) hdm
          simp only [Nat.cast_add, Nat.cast_mul] at h2
          linarith
        have : -(if (!neg) = true then (-1 : Int) else 1) * ((A / B * X + Y : Nat) : Int) * a =
            (if neg = true then (-1 : Int) else 1) * (Y : Int) * a -
              ((A / B : Nat) : Int) * (-(if neg = true then (-1 : Int) else 1) * (X : Int) * a) := by
          cases neg <;> simp <;> ring
        rw [this, hcast]
        exact Int.ModEq.sub hc1 (Int.ModEq.mul_left _ hc2)

/-- What a non-null result of `BN_mod_inverse` tells about the loop: it ended with `A = 1`,
and the adjusted cofactor `Y1` satisfies `Y1*a ≡ 1 (mod |n|)` and, for `n > 0`, `0 ≤ Y1`. -/
theorem BN_mod_inverse_loop (alias_check : Bool) (a n d : Int)
    (h : BN_mod_inverse alias_check a n = some d) :
    n ≠ 0 ∧ ∃ Y1 : Int, Y1 * a ≡ 1 [ZMOD n] ∧ (0 < n → 0 ≤ Y1) ∧
      ((0 ≤ Y1 ∧ Y1.natAbs < n.natAbs ∧ d = Y1) ∨
        BN_nnmod_aliased alias_check Y1 n = some d) := by
  unfold BN_mod_inverse at h
  simp only at h
  split at h
  · simp at h
  · rename_i hm
    have hm0 : n.natAbs ≠ 0 := fun h0 => hm (Or.inl h0)
    have hn : n ≠ 0 := by simpa using hm0
    refine ⟨hn, ?_⟩
    split at h
    · simp at h
    · rename_i A Y neg hloop
      by_cases hA : A = 1
      · rw [if_pos hA] at h
        subst hA
        have hmpos : (0 : Int) < (n.natAbs : Int) := by omega
        have hb : (((a % (n.natAbs : Int)).toNat : Nat) : Int) = a % (n.natAbs : Int) :=
          Int.toNat_of_nonneg (Int.emod_nonneg _ (by omega))
        have hblt : (a % (n.natAbs : Int)).toNat < n.natAbs := by
          have h1 : a % (n.natAbs : Int) < (n.natAbs : Int) := Int.emod_lt_of_pos _ hmpos
          omega
        obtain ⟨hcong, hbound⟩ := modInverseLoop_inv n.natAbs (a % (n.natAbs : Int)) _
          n.natAbs (a % (n.natAbs : Int)).toNat 1 0 true 1 Y neg hblt (by omega) (by simp)
          (by simp [Int.ModEq]) (by rw [hb]; simp) hloop
        have hYm : Y ≤ n.natAbs := by simpa using hbound
        have habs : ((n.natAbs : Nat) : Int) = n ∨ ((n.natAbs : Nat) : Int) = -n := by omega
        -- the congruence with `a` in place of `a mod |n|`
        have hcong2 : (if neg = true then (-1 : Int) else 1) * (Y : Int) * a ≡ 1
            [ZMOD (n.natAbs : Int)] := by
          have : (if neg = true then (-1 : Int) else 1) * (Y : Int) * (a % (n.natAbs : Int)) ≡
              (if neg = true then (-1 : Int) else 1) * (Y : Int) * a [ZMOD (n.natAbs : Int)] :=
            Int.ModEq.mul_left _ (Int.mod_modEq a _)
          exact this.symm.trans (by simpa using hcong)
        have hcong3 : (if neg = true then n - (Y : Int) else (Y : Int)) * a ≡ 1
            [ZMOD (n.natAbs : Int)] := by
          cases neg
          · simpa using hcong2
          · have h1 : (n - (Y : Int)) * a ≡ (-1 : Int) * (Y : Int) * a [ZMOD (n.natAbs : Int)] := by
              apply Int.modEq_iff_dvd.2
              rcases habs with h | h
              · exact ⟨-a, by rw [h]; ring⟩
              · exact ⟨a, by rw [h]; ring⟩
            exact h1.trans (by simpa using hcong2)
        -- and modulo `n` itself
        have hcong4 : (if neg = true then n - (Y : Int) else (Y : Int)) * a ≡ 1 [ZMOD n] :=
          Int.modEq_iff_dvd.2 (Int.natAbs_dvd.1 (Int.modEq_iff_dvd.1 hcong3))
        have hnonneg : 0 < n → 0 ≤ (if neg = true then n - (Y : Int) else (Y : Int)) := by
          intro hpos
          cases neg
          · exact Int.natCast_nonneg Y
          · show 0 ≤ n - (Y : Int)
            omega
        refine ⟨_, hcong4, hnonneg, ?_⟩
        by_cases hcopy : 0 ≤ (if neg = true then n - (Y : Int) else (Y : Int)) ∧
            (if neg = true then n - (Y : Int) else (Y : Int)).natAbs < n.natAbs
        · rw [if_pos hcopy] at h
          simp only [Option.some.injEq] at h
          exact Or.inl ⟨hcopy.1, hcopy.2, h.symm⟩
        · rw [if_neg hcopy] at h
          exact Or.inr h
      · rw [if_neg hA] at h
        simp at h

/-- A non-null result of `BN_mod_inverse` means the operands are coprime. -/
theorem BN_mod_inverse_coprime (alias_check : Bool) (a n d : Int)
    (h : BN_mod_inverse alias_check a n = some d) : n ≠ 0 ∧ Int.gcd a n = 1 := by
  obtain ⟨hn, Y1, hcong, -, -⟩ := BN_mod_inverse_loop alias_check a n d h
  refine ⟨hn, ?_⟩
  obtain ⟨c, hc⟩ := Int.modEq_iff_dvd.1 hcong
  rw [← Int.isCoprime_iff_gcd_eq_one]
  exact ⟨Y1, c, by linarith⟩

/-- For a positive modulus a non-null result of `BN_mod_inverse` is the reduced inverse. -/
theorem BN_mod_inverse_spec (alias_check : Bool) (a n d : Int) (hpos : 0 < n)
    (h : BN_mod_inverse alias_check a n = some d) :
    d * a ≡ 1 [ZMOD n] ∧ 0 ≤ d ∧ d < n := by
  obtain ⟨-, Y1, hcong, hnonneg, hres⟩ := BN_mod_inverse_loop alias_check a n d h
  have hY := hnonneg hpos
  rcases hres with ⟨h0, hlt, hd⟩ | hres
  · subst hd
    exact ⟨hcong, h0, by omega⟩
  · unfold BN_nnmod_aliased at hres
    split at hres
    · simp at hres
    · have htmod : Int.tmod Y1 n = Y1 % n := Int.tmod_eq_emod hY (le_of_lt hpos)
      rw [htmod] at hres
      have hge : ¬ (Y1 % n < 0) := not_lt.2 (Int.emod_nonneg _ (by omega))
      rw [if_neg hge] at hres
      simp only [Option.some.injEq] at hres
      subst hres
      exact ⟨(Int.ModEq.mul_right _ (Int.mod_modEq Y1 _)).trans hcong,
        Int.emod_nonneg _ (by omega), Int.emod_lt_of_pos _ hpos⟩

/-- The inverse at three small moduli: for the modulus `-3` the adjusted cofactor is `-4` and
the result goes through the aliased `BN_nnmod` (a failure, or zero on older releases); for
the modulus `-2` the cofactor `1` is returned as it is; for the modulus `1` there is no
result. -/
theorem BN_mod_inverse_small_moduli :
    BN_mod_inverse true 65537 (-3) = none ∧ BN_mod_inverse false 65537 (-3) = some 0 ∧
    BN_mod_inverse true 65537 (-2) = some 1 ∧ BN_mod_inverse false 65537 (-2) = some 1 ∧
    BN_mod_inverse true 65537 1 = none ∧ BN_mod_inverse true 3 20 = some 7 := by
  decide

/-! ## Lemmas on `sgx_create_rsa_priv2_key` -/

/-- The status and handle slot that `priv2_exit` returns are those of the block. -/
theorem priv2_exit_ret_slot (L : Priv2Locals) :
    (priv2_exit L).ret_code = L.ret_code ∧ (priv2_exit L).slot = L.slot ∧
    (priv2_exit L).allocated = L.allocated := by
  unfold priv2_exit
  simp only
  split <;> simp

/-- Lines 216-255 either succeed, with both key objects allocated and the key stored in the
slot, or leave with `ERROR_UNEXPECTED` and the slot as it was. -/
theorem priv2_install_cases (pv : CtorProvider) (slot : Option (Option RSAKey)) (key : RSAKey)
    (calls4 : List Call) (allocated1 : List Obj) :
    ((priv2_install pv slot key calls4 allocated1).ret_code = .SUCCESS ∧
      pv.RSA_new_ok = true ∧ pv.EVP_PKEY_new_ok = true ∧
      (priv2_install pv slot key calls4 allocated1).slot = slot.map (fun _ => some key)) ∨
    ((priv2_install pv slot key calls4 allocated1).ret_code = .ERROR_UNEXPECTED ∧
      (priv2_install pv slot key calls4 allocated1).slot = slot) := by
  unfold priv2_install
  dsimp only
  split_ifs <;> simp_all

/-- The block of `sgx_create_rsa_priv2_key` either succeeds, with the inverse computed and the
key stored in the slot, or leaves with `ERROR_UNEXPECTED` and the slot as it was. -/
theorem priv2_body_cases (pv : CtorProvider) (mod_size exp_size : Int)
    (be bp bq bdmp1 bdmq1 biqmp : Buffer) (slot : Option (Option RSAKey)) :
    Priv2Outcome pv mod_size exp_size be bp bq bdmp1 bdmq1 biqmp slot
      (priv2_body pv mod_size exp_size be bp bq bdmp1 bdmq1 biqmp slot) := by
  unfold priv2_body
  dsimp only
  split_ifs
  all_goals try (unfold Priv2Outcome; right; exact ⟨rfl, rfl⟩)
  split
  · unfold Priv2Outcome; right; exact ⟨rfl, rfl⟩
  · rename_i d hd
    unfold Priv2Outcome
    dsimp only
    rcases priv2_install_cases pv slot _ _ _ with h | h
    · left; exact ⟨d, hd, h.1, h.2.1, h.2.2.1, h.2.2.2⟩
    · right; exact h

/-! ## Lemmas on the facade functions -/

theorem BN_num_bytes_eq (a w : Nat) (h1 : 256 ^ w ≤ a) (h2 : a < 256 ^ (w + 1)) :
    BN_num_bytes a = w + 1 := by
  have hle := (BN_num_bytes_le_iff a (w + 1)).2 h2
  have hnle : ¬ BN_num_bytes a ≤ w := fun h => by
    have := (BN_num_bytes_le_iff a w).1 h
    omega
  omega

theorem EVP_PKEY_size_key2048 : EVP_PKEY_size key2048 = 256 := by
  unfold EVP_PKEY_size key2048 n2048
  have h : (((some ((128 : Int) * 256 ^ 255 + 1) : Option Int).getD 0).natAbs) =
      128 * 256 ^ 255 + 1 := by
    simp only [Option.getD_some]
    have : ((128 : Int) * 256 ^ 255 + 1) = ((128 * 256 ^ 255 + 1 : Nat) : Int) := by
      push_cast
    rw [this, Int.natAbs_ofNat]
  rw [h]
  exact BN_num_bytes_eq _ 255 (by norm_num) (by norm_num)

/-- The context the facade functions hand to the provider: OAEP padding with SHA-256. -/
theorem facade_ctx (key : RSAKey) :
    EVP_PKEY_CTX_set_rsa_oaep_md
      (EVP_PKEY_CTX_set_rsa_padding (EVP_PKEY_CTX_new key) .RSA_PKCS1_OAEP_PADDING) EVP_sha256 =
    { pkey := key, pad_mode := .RSA_PKCS1_OAEP_PADDING, md := .sha256 } := by
  rfl

/-- A successful length query of a facade function stores the key size, and tells that the
parameter check, the context creation and the initialisation all passed. -/
theorem rsa_crypt_probe (dir : Direction) (pv : CipherProvider) (rsa_key : Option RSAKey)
    (pout_len : Option Nat) (pin_data : Option Buffer) (pin_len L : Nat)
    (hret : (rsa_crypt_sha256 dir pv rsa_key none pout_len pin_data pin_len).ret_code =
      .SUCCESS)
    (hlen : (rsa_crypt_sha256 dir pv rsa_key none pout_len pin_data pin_len).pout_len =
      some L) :
    ¬ (rsa_key = none ∨ pout_len = none ∨ pin_data = none ∨ pin_len < 1 ∨ pin_len ≥ INT_MAX) ∧
    pv.EVP_PKEY_CTX_new_ok = true ∧ pv.init_ok dir = true ∧
    L = EVP_PKEY_size (rsa_key.getD ⟨none, none, none, none, none, none, none, none⟩) ∧
    L ≠ 0 := by
  unfold rsa_crypt_sha256 at hret hlen
  split at hret
  · simp at hret
  · rename_i hvalid
    rw [if_neg hvalid] at hlen
    dsimp only at hret hlen
    split at hret
    · simp at hret
    · rename_i hctx
      rw [if_neg hctx] at hlen
      split at hret
      · simp at hret
      · rename_i hinit
        rw [if_neg hinit] at hlen
        rw [facade_ctx] at hret hlen
        unfold EVP_PKEY_crypt at hret hlen
        dsimp only at hret hlen
        split at hret
        · simp at hret
        · rename_i hsz
          rw [if_neg hsz] at hlen
          simp at hlen
          refine ⟨hvalid, by simpa using hctx, by simpa using hinit, hlen.symm, ?_⟩
          rw [← hlen]; exact hsz

/-- A call with an output buffer whose declared capacity is below the key size is refused
with `ERROR_INVALID_PARAMETER`; buffer and length are left as they were. -/
theorem rsa_crypt_fill_small (dir : Direction) (pv : CipherProvider) (rsa_key : Option RSAKey)
    (buf : Buffer) (len : Nat) (pin_data : Option Buffer) (pin_len : Nat)
    (hvalid : ¬ (rsa_key = none ∨ (some len : Option Nat) = none ∨ pin_data = none ∨
      pin_len < 1 ∨ pin_len ≥ INT_MAX))
    (hctx : pv.EVP_PKEY_CTX_new_ok = true) (hinit : pv.init_ok dir = true)
    (hsz : EVP_PKEY_size (rsa_key.getD ⟨none, none, none, none, none, none, none, none⟩) ≠ 0)
    (hsmall : len < EVP_PKEY_size
      (rsa_key.getD ⟨none, none, none, none, none, none, none, none⟩)) :
    rsa_crypt_sha256 dir pv rsa_key (some buf) (some len) pin_data pin_len =
      { ret_code := .ERROR_INVALID_PARAMETER, pout_data := some buf, pout_len := some len,
        calls := [.EVP_PKEY_CTX_new, init_call dir, .EVP_PKEY_CTX_set_rsa_padding, .EVP_sha256,
          .EVP_PKEY_CTX_set_rsa_oaep_md, crypt_call dir, .EVP_PKEY_CTX_free] } := by
  unfold rsa_crypt_sha256
  rw [if_neg hvalid]
  dsimp only
  rw [if_neg (by simp [hctx]), if_neg (by simp [hinit]), facade_ctx]
  unfold EVP_PKEY_crypt
  dsimp only
  rw [if_neg hsz]
  dsimp only
  rw [if_neg (by decide)]
  have hs : (some len : Option Nat).getD 0 < EVP_PKEY_size
      (rsa_key.getD ⟨none, none, none, none, none, none, none, none⟩) := hsmall
  rw [if_pos hs]
  rfl

theorem demo_encrypt_probe :
    (sgx_rsa_pub_encrypt_sha256 demoCipher (some key2048) none (some 0) (some hello)
      13).ret_code = .SUCCESS ∧
    (sgx_rsa_pub_encrypt_sha256 demoCipher (some key2048) none (some 0) (some hello)
      13).pout_len = some 256 := by
  simp [sgx_rsa_pub_encrypt_sha256, rsa_crypt_sha256, EVP_PKEY_crypt, facade_ctx,
    EVP_PKEY_size_key2048, INT_MAX, demoCipher]

theorem demo_decrypt_probe_block :
    (sgx_rsa_priv_decrypt_sha256 demoCipher (some key2048) none (some 0) (some block256)
      256).ret_code = .SUCCESS ∧
    (sgx_rsa_priv_decrypt_sha256 demoCipher (some key2048) none (some 0) (some block256)
      256).pout_len = some 256 := by
  simp [sgx_rsa_priv_decrypt_sha256, rsa_crypt_sha256, EVP_PKEY_crypt, facade_ctx,
    EVP_PKEY_size_key2048, INT_MAX, demoCipher]

/-- C6, evaluated on the code: with `m = 64`, `k = 8`, the 512-bit key `key512` and output
buffers that held `0xFF` bytes, `sgx_create_rsa_key_pair` returns `SUCCESS` and copies 31
bytes into the 32-byte `dmq1` buffer; the buffer read over its full width `m/2 = 32` (as
`sgx_create_rsa_priv2_key` reads it) is not the key's `dmq1`: the last byte is still
`0xFF`. -/
theorem key_pair_short_value_keeps_old_bytes :
    (sgx_create_rsa_key_pair provider512 64 8 mem512).ret_code = .SUCCESS ∧
    (KeyField.dmq1, 31) ∈ (sgx_create_rsa_key_pair provider512 64 8 mem512).copied ∧
    ((sgx_create_rsa_key_pair provider512 64 8 mem512).mem .dmq1).map
        (fun b => BN_lebin2bn b (64 / 2)) =
      some 0xff2e79bb8e65f0aaa2974842a78754117a2694544a5ad2250009a9fb84b6cf09 ∧
    key512.dmq1 =
      0x2e79bb8e65f0aaa2974842a78754117a2694544a5ad2250009a9fb84b6cf09 := by
  decide

/-- C7, evaluated on the code: with `m = 65`, `k = 8` and the 520-bit key `key520`, whose
primes are 33 bytes long, `sgx_create_rsa_key_pair` does not fail: it returns `SUCCESS`
having copied 33 bytes into the `p` buffer and 33 into the `q` buffer, whose capacity is
`m/2 = 32`; the 32-byte memory behind `p_p` has grown to 33 bytes, that is, one byte was
written past its end. -/
theorem key_pair_copies_past_half_width :
    (sgx_create_rsa_key_pair provider520 65 8 mem520).ret_code = .SUCCESS ∧
    (KeyField.p, 33) ∈ (sgx_create_rsa_key_pair provider520 65 8 mem520).copied ∧
    (KeyField.q, 33) ∈ (sgx_create_rsa_key_pair provider520 65 8 mem520).copied ∧
    capacity 65 8 .p = 32 ∧ capacity 65 8 .q = 32 ∧
    (mem520 .p).map List.length = some 32 ∧
    ((sgx_create_rsa_key_pair provider520 65 8 mem520).mem .p).map List.length = some 33 := by
  decide

/-- C2 as stated fails: for `p = 0`, `q = 3`, `e = 65537` (`mod_size = 2`, `exp_size = 3`) the
modulus of the inverse is `(p-1)(q-1) = -2`; the provider's loop ends with `Y = 1`, which is
returned as it is, so the call returns `SUCCESS` with `d = 1`, and `0 ≤ d < (p-1)(q-1)` is
false. -/
theorem priv2_inverse_bound_fails_for_zero_factor :
    (sgx_create_rsa_priv2_key allOk 2 3 (some e65537) (some [0]) (some [3]) (some [0])
      (some [0]) (some [0]) (some none)).ret_code = .SUCCESS ∧
    (sgx_create_rsa_priv2_key allOk 2 3 (some e65537) (some [0]) (some [3]) (some [0])
      (some [0]) (some [0]) (some none)).slot =
      some (some { n := some 0, e := some 65537, d := some 1, p := some 0, q := some 3,
                   dmp1 := some 0, dmq1 := some 0, iqmp := some 0 }) ∧
    (0 - 1 : Int) * (3 - 1) = -2 ∧
    ¬ ((0 : Int) ≤ 1 ∧ (1 : Int) < (0 - 1) * (3 - 1)) := by
  decide

/-- C2, amended: whenever `sgx_create_rsa_priv2_key` returns `SUCCESS` on an input with
`p ≥ 1` and `q ≥ 1`, the key stored in the handle has `n = p*q` and a private exponent `d`
with `d*e ≡ 1 (mod (p-1)(q-1))` and `0 ≤ d < (p-1)(q-1)`; the modulus the code computes,
`n - p - q + 1`, equals `(p-1)(q-1)`. -/
theorem priv2_key_values (pv : CtorProvider) (mod_size exp_size : Int)
    (pe pp pq pdmp1 pdmq1 piqmp : Option Buffer) (slot : Option (Option RSAKey))
    (hp : 1 ≤ BN_lebin2bn (pp.getD []) (mod_size / 2).toNat)
    (hq : 1 ≤ BN_lebin2bn (pq.getD []) (mod_size / 2).toNat)
    (h : (sgx_create_rsa_priv2_key pv mod_size exp_size pe pp pq pdmp1 pdmq1 piqmp
      slot).ret_code = .SUCCESS) :
    ∃ (key : RSAKey) (d : Int),
      (sgx_create_rsa_priv2_key pv mod_size exp_size pe pp pq pdmp1 pdmq1 piqmp slot).slot =
        some (some key) ∧
      key.n = some (((BN_lebin2bn (pp.getD []) (mod_size / 2).toNat : Nat) : Int) *
        ((BN_lebin2bn (pq.getD []) (mod_size / 2).toNat : Nat) : Int)) ∧
      key.d = some d ∧
      d * ((BN_lebin2bn (pe.getD []) exp_size.toNat : Nat) : Int) ≡ 1
        [ZMOD (((BN_lebin2bn (pp.getD []) (mod_size / 2).toNat : Nat) : Int) - 1) *
          (((BN_lebin2bn (pq.getD []) (mod_size / 2).toNat : Nat) : Int) - 1)] ∧
      0 ≤ d ∧
      d < (((BN_lebin2bn (pp.getD []) (mod_size / 2).toNat : Nat) : Int) - 1) *
          (((BN_lebin2bn (pq.getD []) (mod_size / 2).toNat : Nat) : Int) - 1) ∧
      ((BN_lebin2bn (pp.getD []) (mod_size / 2).toNat : Nat) : Int) *
          ((BN_lebin2bn (pq.getD []) (mod_size / 2).toNat : Nat) : Int) -
          ((BN_lebin2bn (pp.getD []) (mod_size / 2).toNat : Nat) : Int) -
          ((BN_lebin2bn (pq.getD []) (mod_size / 2).toNat : Nat) : Int) + 1 =
        (((BN_lebin2bn (pp.getD []) (mod_size / 2).toNat : Nat) : Int) - 1) *
          (((BN_lebin2bn (pq.getD []) (mod_size / 2).toNat : Nat) : Int) - 1) := by
  unfold sgx_create_rsa_priv2_key at h ⊢
  split at h
  · simp at h
  · rename_i hvalid
    rw [if_neg hvalid]
    have hslot : slot ≠ none := fun hs => hvalid (by simp [hs])
    obtain ⟨s, hs⟩ := Option.ne_none_iff_exists'.1 hslot
    have hex := priv2_exit_ret_slot (priv2_body pv mod_size exp_size (pe.getD []) (pp.getD [])
      (pq.getD []) (pdmp1.getD []) (pdmq1.getD []) (piqmp.getD []) slot)
    rw [hex.1] at h
    rw [hex.2.1]
    have hcases := priv2_body_cases pv mod_size exp_size (pe.getD []) (pp.getD [])
      (pq.getD []) (pdmp1.getD []) (pdmq1.getD []) (piqmp.getD []) slot
    unfold Priv2Outcome at hcases
    dsimp only at hcases
    rcases hcases with ⟨d, hinv, -, -, -, hsl⟩ | ⟨hret, -⟩
    · have hring : ∀ x y : Int, x * y - x - y + 1 = (x - 1) * (y - 1) := by intro x y; ring
      rw [hring] at hinv
      have hne := (BN_mod_inverse_coprime _ _ _ _ hinv).1
      have hnonneg : (0 : Int) ≤
          (((BN_lebin2bn (pp.getD []) (mod_size / 2).toNat : Nat) : Int) - 1) *
          (((BN_lebin2bn (pq.getD []) (mod_size / 2).toNat : Nat) : Int) - 1) :=
        mul_nonneg (by omega) (by omega)
      have hpos := lt_of_le_of_ne hnonneg (Ne.symm hne)
      obtain ⟨hmod, h0, hlt⟩ := BN_mod_inverse_spec _ _ _ _ hpos hinv
      rw [hsl, hs]
      exact ⟨_, d, rfl, rfl, rfl, hmod, h0, hlt, hring _ _⟩
    · rw [hret] at h
      exact absurd h (by decide)

/-- C2, amended, at a concrete input: the factors `p32`, `q32` with `e = 65537` give `SUCCESS`
and the stated key. -/
theorem priv2_key_values_witness :
    (sgx_create_rsa_priv2_key allOk 4 3 (some e65537) (some p32) (some q32) (some dmp1_32)
      (some dmq1_32) (some iqmp32) (some none)).ret_code = .SUCCESS ∧
    ∃ (key : RSAKey) (d : Int),
      (sgx_create_rsa_priv2_key allOk 4 3 (some e65537) (some p32) (some q32) (some dmp1_32)
        (some dmq1_32) (some iqmp32) (some none)).slot = some (some key) ∧
      key.n = some (((BN_lebin2bn ((some p32).getD []) ((4 : Int) / 2).toNat : Nat) : Int) *
        ((BN_lebin2bn ((some q32).getD []) ((4 : Int) / 2).toNat : Nat) : Int)) ∧
      key.d = some d ∧
      d * ((BN_lebin2bn ((some e65537).getD []) (3 : Int).toNat : Nat) : Int) ≡ 1
        [ZMOD (((BN_lebin2bn ((some p32).getD []) ((4 : Int) / 2).toNat : Nat) : Int) - 1) *
          (((BN_lebin2bn ((some q32).getD []) ((4 : Int) / 2).toNat : Nat) : Int) - 1)] ∧
      0 ≤ d ∧
      d < (((BN_lebin2bn ((some p32).getD []) ((4 : Int) / 2).toNat : Nat) : Int) - 1) *
          (((BN_lebin2bn ((some q32).getD []) ((4 : Int) / 2).toNat : Nat) : Int) - 1) ∧
      ((BN_lebin2bn ((some p32).getD []) ((4 : Int) / 2).toNat : Nat) : Int) *
          ((BN_lebin2bn ((some q32).getD []) ((4 : Int) / 2).toNat : Nat) : Int) -
          ((BN_lebin2bn ((some p32).getD []) ((4 : Int) / 2).toNat : Nat) : Int) -
          ((BN_lebin2bn ((some q32).getD []) ((4 : Int) / 2).toNat : Nat) : Int) + 1 =
        (((BN_lebin2bn ((some p32).getD []) ((4 : Int) / 2).toNat : Nat) : Int) - 1) *
          (((BN_lebin2bn ((some q32).getD []) ((4 : Int) / 2).toNat : Nat) : Int) - 1) :=
  ⟨by decide, priv2_key_values allOk 4 3 (some e65537) (some p32) (some q32) (some dmp1_32)
      (some dmq1_32) (some iqmp32) (some none) (by decide) (by decide) (by decide)⟩

/-- C8: for every otherwise valid input to `sgx_create_rsa_priv2_key` in which `e` and
`(p-1)(q-1)` are not coprime, the call returns `ERROR_UNEXPECTED` and the handle slot keeps
its content, whatever the provider's other calls do. -/
theorem priv2_rejects_non_coprime (pv : CtorProvider) (mod_size exp_size : Int)
    (pe pp pq pdmp1 pdmq1 piqmp : Option Buffer) (slot : Option (Option RSAKey))
    (hvalid : 0 < mod_size ∧ 0 < exp_size ∧ slot ≠ none ∧ pe ≠ none ∧ pp ≠ none ∧ pq ≠ none ∧
      pdmp1 ≠ none ∧ pdmq1 ≠ none ∧ piqmp ≠ none)
    (hgcd : Int.gcd ((BN_lebin2bn (pe.getD []) exp_size.toNat : Nat) : Int)
      ((((BN_lebin2bn (pp.getD []) (mod_size / 2).toNat : Nat) : Int) - 1) *
        (((BN_lebin2bn (pq.getD []) (mod_size / 2).toNat : Nat) : Int) - 1)) ≠ 1) :
    (sgx_create_rsa_priv2_key pv mod_size exp_size pe pp pq pdmp1 pdmq1 piqmp slot).ret_code =
      .ERROR_UNEXPECTED ∧
    (sgx_create_rsa_priv2_key pv mod_size exp_size pe pp pq pdmp1 pdmq1 piqmp slot).slot =
      slot := by
  obtain ⟨hm, hk, hs, h1, h2, h3, h4, h5, h6⟩ := hvalid
  unfold sgx_create_rsa_priv2_key
  have hnot : ¬ (mod_size ≤ 0 ∨ exp_size ≤ 0 ∨ slot = none ∨ pe = none ∨ pp = none ∨
      pq = none ∨ pdmp1 = none ∨ pdmq1 = none ∨ piqmp = none) := by
    simp only [not_or]
    exact ⟨by omega, by omega, hs, h1, h2, h3, h4, h5, h6⟩
  rw [if_neg hnot]
  have hex := priv2_exit_ret_slot (priv2_body pv mod_size exp_size (pe.getD []) (pp.getD [])
    (pq.getD []) (pdmp1.getD []) (pdmq1.getD []) (piqmp.getD []) slot)
  rw [hex.1, hex.2.1]
  have hcases := priv2_body_cases pv mod_size exp_size (pe.getD []) (pp.getD [])
    (pq.getD []) (pdmp1.getD []) (pdmq1.getD []) (piqmp.getD []) slot
  unfold Priv2Outcome at hcases
  dsimp only at hcases
  rcases hcases with ⟨d, hinv, -, -, -, -⟩ | hfail
  · have hring : ∀ x y : Int, x * y - x - y + 1 = (x - 1) * (y - 1) := by intro x y; ring
    rw [hring] at hinv
    exact absurd (BN_mod_inverse_coprime _ _ _ _ hinv).2 hgcd
  · exact hfail

/-- C8 at a concrete input: `e = 3`, `p = 7`, `q = 11` (`(p-1)(q-1) = 60`). -/
theorem priv2_rejects_non_coprime_witness :
    (sgx_create_rsa_priv2_key allOk 2 1 (some [3]) (some [7]) (some [11]) (some [1])
      (some [7]) (some [2]) (some none)).ret_code = .ERROR_UNEXPECTED ∧
    (sgx_create_rsa_priv2_key allOk 2 1 (some [3]) (some [7]) (some [11]) (some [1])
      (some [7]) (some [2]) (some none)).slot = some none :=
  priv2_rejects_non_coprime allOk 2 1 (some [3]) (some [7]) (some [11]) (some [1])
    (some [7]) (some [2]) (some none) (by decide) (by decide)

/-- C9 as stated fails: on valid input with `RSA_new` returning `NULL`,
`sgx_create_rsa_pub1_key` returns `ERROR_UNEXPECTED`, not `ERROR_OUT_OF_MEMORY`. -/
theorem pub1_allocation_failure_is_unexpected :
    (sgx_create_rsa_pub1_key rsaNewFails 4 3 (some n32) (some e65537)
      (some none)).ret_code = .ERROR_UNEXPECTED ∧
    (sgx_create_rsa_pub1_key rsaNewFails 4 3 (some n32) (some e65537)
      (some none)).ret_code ≠ .ERROR_OUT_OF_MEMORY := by
  decide

/-- C9, amended: on otherwise valid input, a null `RSA_new` makes `sgx_create_rsa_key_pair`
return `ERROR_OUT_OF_MEMORY`, and a null `RSA_new` or `EVP_PKEY_new` makes each of the three
constructors return `ERROR_UNEXPECTED`. -/
theorem allocation_failure_status :
    (∀ (pv : KeyPairProvider) (m k : Int) (mem : KeyPairMem),
      0 < m → 0 < k → (∀ f, mem f ≠ none) → pv.RSA_new_ok = false →
      (sgx_create_rsa_key_pair pv m k mem).ret_code = .ERROR_OUT_OF_MEMORY) ∧
    (∀ (pv : CtorProvider) (m k : Int) (pe pp pq pdmp1 pdmq1 piqmp : Option Buffer)
      (slot : Option (Option RSAKey)),
      0 < m → 0 < k → slot ≠ none → pe ≠ none → pp ≠ none → pq ≠ none → pdmp1 ≠ none →
      pdmq1 ≠ none → piqmp ≠ none → (pv.RSA_new_ok = false ∨ pv.EVP_PKEY_new_ok = false) →
      (sgx_create_rsa_priv2_key pv m k pe pp pq pdmp1 pdmq1 piqmp slot).ret_code =
        .ERROR_UNEXPECTED) ∧
    (∀ (pv : CtorProvider) (m k j : Int) (pn pe pd : Option Buffer)
      (slot : Option (Option RSAKey)),
      0 < m → 0 < k → 0 < j → slot ≠ none → pn ≠ none → pe ≠ none → pd ≠ none →
      (pv.RSA_new_ok = false ∨ pv.EVP_PKEY_new_ok = false) →
      (sgx_create_rsa_priv1_key pv m k j pn pe pd slot).ret_code = .ERROR_UNEXPECTED) ∧
    (∀ (pv : CtorProvider) (m k : Int) (pn pe : Option Buffer)
      (slot : Option (Option RSAKey)),
      0 < m → 0 < k → slot ≠ none → pn ≠ none → pe ≠ none →
      (pv.RSA_new_ok = false ∨ pv.EVP_PKEY_new_ok = false) →
      (sgx_create_rsa_pub1_key pv m k pn pe slot).ret_code = .ERROR_UNEXPECTED) := by
  refine ⟨?_, ?_, ?_, ?_⟩
  · intro pv m k mem hm hk hmem hnew
    unfold sgx_create_rsa_key_pair
    have hnot : ¬ (m ≤ 0 ∨ k ≤ 0 ∨ mem .n = none ∨ mem .d = none ∨ mem .e = none ∨
        mem .p = none ∨ mem .q = none ∨ mem .dmp1 = none ∨ mem .dmq1 = none ∨
        mem .iqmp = none) := by
      simp only [not_or]
      exact ⟨by omega, by omega, hmem _, hmem _, hmem _, hmem _, hmem _, hmem _, hmem _,
        hmem _⟩
    rw [if_neg hnot, if_pos hnew]
  · intro pv m k pe pp pq pdmp1 pdmq1 piqmp slot hm hk hs h1 h2 h3 h4 h5 h6 halloc
    unfold sgx_create_rsa_priv2_key
    have hnot : ¬ (m ≤ 0 ∨ k ≤ 0 ∨ slot = none ∨ pe = none ∨ pp = none ∨
        pq = none ∨ pdmp1 = none ∨ pdmq1 = none ∨ piqmp = none) := by
      simp only [not_or]
      exact ⟨by omega, by omega, hs, h1, h2, h3, h4, h5, h6⟩
    rw [if_neg hnot]
    rw [(priv2_exit_ret_slot _).1]
    have hcases := priv2_body_cases pv m k (pe.getD []) (pp.getD [])
      (pq.getD []) (pdmp1.getD []) (pdmq1.getD []) (piqmp.getD []) slot
    unfold Priv2Outcome at hcases
    dsimp only at hcases
    rcases hcases with ⟨d, -, -, hr, hp, -⟩ | hfail
    · rcases halloc with h | h <;> simp_all
    · exact hfail.1
  · intro pv m k j pn pe pd slot hm hk hj hs h1 h2 h3 halloc
    unfold sgx_create_rsa_priv1_key
    have hnot : ¬ (m ≤ 0 ∨ k ≤ 0 ∨ j ≤ 0 ∨ slot = none ∨ pn = none ∨ pe = none ∨
        pd = none) := by
      simp only [not_or]
      exact ⟨by omega, by omega, by omega, hs, h1, h2, h3⟩
    rw [if_neg hnot]
    dsimp only
    rw [if_pos halloc]
  · intro pv m k pn pe slot hm hk hs h1 h2 halloc
    unfold sgx_create_rsa_pub1_key
    have hnot : ¬ (slot = none ∨ m ≤ 0 ∨ k ≤ 0 ∨ pn = none ∨ pe = none) := by
      simp only [not_or]
      exact ⟨hs, by omega, by omega, h1, h2⟩
    rw [if_neg hnot]
    dsimp only
    rw [if_pos halloc]

/-- C10, evaluated on the code: on the valid input `p32`, `q32`, ..., with `RSA_new`
returning `NULL` and `EVP_PKEY_new` succeeding, `sgx_create_rsa_priv2_key` returns
`ERROR_UNEXPECTED` having allocated the key object `rsa_key` and never released it; on the
same provider `sgx_create_rsa_pub1_key` releases it. -/
theorem priv2_leaks_pkey_when_rsa_new_fails :
    (sgx_create_rsa_priv2_key rsaNewFails 4 3 (some e65537) (some p32) (some q32)
      (some dmp1_32) (some dmq1_32) (some iqmp32) (some none)).ret_code = .ERROR_UNEXPECTED ∧
    Obj.rsa_key ∈ (sgx_create_rsa_priv2_key rsaNewFails 4 3 (some e65537) (some p32)
      (some q32) (some dmp1_32) (some dmq1_32) (some iqmp32) (some none)).allocated ∧
    Obj.rsa_key ∉ (sgx_create_rsa_priv2_key rsaNewFails 4 3 (some e65537) (some p32)
      (some q32) (some dmp1_32) (some dmq1_32) (some iqmp32) (some none)).released ∧
    Obj.rsa_key ∈ (sgx_create_rsa_pub1_key rsaNewFails 4 3 (some n32)
      (some e65537) (some none)).released := by
  decide

/-- C9, amended, at concrete inputs: `sgx_create_rsa_key_pair` with a null `RSA_new` gives
`ERROR_OUT_OF_MEMORY`; the three constructors with a null `RSA_new` give
`ERROR_UNEXPECTED`. -/
theorem allocation_failure_status_witness :
    (sgx_create_rsa_key_pair { provider512 with RSA_new_ok := false } 64 8 mem512).ret_code =
      .ERROR_OUT_OF_MEMORY ∧
    (sgx_create_rsa_priv2_key rsaNewFails 4 3 (some e65537) (some p32) (some q32)
      (some dmp1_32) (some dmq1_32) (some iqmp32) (some none)).ret_code = .ERROR_UNEXPECTED ∧
    (sgx_create_rsa_priv1_key rsaNewFails 4 3 4 (some n32) (some e65537) (some n32)
      (some none)).ret_code = .ERROR_UNEXPECTED ∧
    (sgx_create_rsa_pub1_key rsaNewFails 4 3 (some n32) (some e65537)
      (some none)).ret_code = .ERROR_UNEXPECTED :=
  ⟨allocation_failure_status.1 { provider512 with RSA_new_ok := false } 64 8 mem512 (by decide)
      (by decide) (by intro f; cases f <;> decide) rfl,
    allocation_failure_status.2.1 rsaNewFails 4 3 (some e65537) (some p32) (some q32)
      (some dmp1_32) (some dmq1_32) (some iqmp32) (some none) (by decide) (by decide)
      (by decide) (by decide) (by decide) (by decide) (by decide) (by decide) (by decide)
      (Or.inl rfl),
    allocation_failure_status.2.2.1 rsaNewFails 4 3 4 (some n32) (some e65537) (some n32)
      (some none) (by decide) (by decide) (by decide) (by decide) (by decide) (by decide)
      (by decide) (Or.inl rfl),
    allocation_failure_status.2.2.2 rsaNewFails 4 3 (some n32) (some e65537) (some none)
      (by decide) (by decide) (by decide) (by decide) (by decide) (Or.inl rfl)⟩

/-- C3: every entry point rejects a caller contract violation before touching the provider.
The four key functions return `ERROR_INVALID_PARAMETER` when a size is `≤ 0` or a pointer is
null, the two facade functions when the key, the length pointer or the input is null or the
input length is `0` or `≥ INT_MAX`; in each case no provider call is made and the caller's
memory (output buffers, output length, handle slot) is as before. -/
theorem invalid_parameters_rejected :
    (∀ (pv : KeyPairProvider) (m k : Int) (mem : KeyPairMem),
      (m ≤ 0 ∨ k ≤ 0 ∨ ∃ f, mem f = none) →
      (sgx_create_rsa_key_pair pv m k mem).ret_code = .ERROR_INVALID_PARAMETER ∧
      (sgx_create_rsa_key_pair pv m k mem).mem = mem ∧
      (sgx_create_rsa_key_pair pv m k mem).calls = [] ∧
      (sgx_create_rsa_key_pair pv m k mem).copied = []) ∧
    (∀ (pv : CtorProvider) (m k : Int) (pe pp pq pdmp1 pdmq1 piqmp : Option Buffer)
      (slot : Option (Option RSAKey)),
      (m ≤ 0 ∨ k ≤ 0 ∨ slot = none ∨ pe = none ∨ pp = none ∨ pq = none ∨ pdmp1 = none ∨
        pdmq1 = none ∨ piqmp = none) →
      (sgx_create_rsa_priv2_key pv m k pe pp pq pdmp1 pdmq1 piqmp slot).ret_code =
        .ERROR_INVALID_PARAMETER ∧
      (sgx_create_rsa_priv2_key pv m k pe pp pq pdmp1 pdmq1 piqmp slot).slot = slot ∧
      (sgx_create_rsa_priv2_key pv m k pe pp pq pdmp1 pdmq1 piqmp slot).calls = [] ∧
      (sgx_create_rsa_priv2_key pv m k pe pp pq pdmp1 pdmq1 piqmp slot).allocated = []) ∧
    (∀ (pv : CtorProvider) (m k j : Int) (pn pe pd : Option Buffer)
      (slot : Option (Option RSAKey)),
      (m ≤ 0 ∨ k ≤ 0 ∨ j ≤ 0 ∨ slot = none ∨ pn = none ∨ pe = none ∨ pd = none) →
      (sgx_create_rsa_priv1_key pv m k j pn pe pd slot).ret_code = .ERROR_INVALID_PARAMETER ∧
      (sgx_create_rsa_priv1_key pv m k j pn pe pd slot).slot = slot ∧
      (sgx_create_rsa_priv1_key pv m k j pn pe pd slot).calls = [] ∧
      (sgx_create_rsa_priv1_key pv m k j pn pe pd slot).allocated = []) ∧
    (∀ (pv : CtorProvider) (m k : Int) (pn pe : Option Buffer)
      (slot : Option (Option RSAKey)),
      (m ≤ 0 ∨ k ≤ 0 ∨ slot = none ∨ pn = none ∨ pe = none) →
      (sgx_create_rsa_pub1_key pv m k pn pe slot).ret_code = .ERROR_INVALID_PARAMETER ∧
      (sgx_create_rsa_pub1_key pv m k pn pe slot).slot = slot ∧
      (sgx_create_rsa_pub1_key pv m k pn pe slot).calls = [] ∧
      (sgx_create_rsa_pub1_key pv m k pn pe slot).allocated = []) ∧
    (∀ (pv : CipherProvider) (rsa_key : Option RSAKey) (pout_data : Option Buffer)
      (pout_len : Option Nat) (pin_data : Option Buffer) (pin_len : Nat),
      (rsa_key = none ∨ pout_len = none ∨ pin_data = none ∨ pin_len = 0 ∨ INT_MAX ≤ pin_len) →
      (sgx_rsa_pub_encrypt_sha256 pv rsa_key pout_data pout_len pin_data pin_len).ret_code =
        .ERROR_INVALID_PARAMETER ∧
      (sgx_rsa_pub_encrypt_sha256 pv rsa_key pout_data pout_len pin_data pin_len).pout_data =
        pout_data ∧
      (sgx_rsa_pub_encrypt_sha256 pv rsa_key pout_data pout_len pin_data pin_len).pout_len =
        pout_len ∧
      (sgx_rsa_pub_encrypt_sha256 pv rsa_key pout_data pout_len pin_data pin_len).calls = []) ∧
    (∀ (pv : CipherProvider) (rsa_key : Option RSAKey) (pout_data : Option Buffer)
      (pout_len : Option Nat) (pin_data : Option Buffer) (pin_len : Nat),
      (rsa_key = none ∨ pout_len = none ∨ pin_data = none ∨ pin_len = 0 ∨ INT_MAX ≤ pin_len) →
      (sgx_rsa_priv_decrypt_sha256 pv rsa_key pout_data pout_len pin_data pin_len).ret_code =
        .ERROR_INVALID_PARAMETER ∧
      (sgx_rsa_priv_decrypt_sha256 pv rsa_key pout_data pout_len pin_data pin_len).pout_data =
        pout_data ∧
      (sgx_rsa_priv_decrypt_sha256 pv rsa_key pout_data pout_len pin_data pin_len).pout_len =
        pout_len ∧
      (sgx_rsa_priv_decrypt_sha256 pv rsa_key pout_data pout_len pin_data pin_len).calls =
        []) := by
  refine ⟨?_, ?_, ?_, ?_, ?_, ?_⟩
  · intro pv m k mem h
    have hc : m ≤ 0 ∨ k ≤ 0 ∨ mem .n = none ∨ mem .d = none ∨ mem .e = none ∨
        mem .p = none ∨ mem .q = none ∨ mem .dmp1 = none ∨ mem .dmq1 = none ∨
        mem .iqmp = none := by
      rcases h with h | h | ⟨f, hf⟩
      · exact Or.inl h
      · exact Or.inr (Or.inl h)
      · cases f <;> simp [hf]
    unfold sgx_create_rsa_key_pair
    rw [if_pos hc]
    exact ⟨rfl, rfl, rfl, rfl⟩
  · intro pv m k pe pp pq pdmp1 pdmq1 piqmp slot h
    unfold sgx_create_rsa_priv2_key
    rw [if_pos h]
    exact ⟨rfl, rfl, rfl, rfl⟩
  · intro pv m k j pn pe pd slot h
    unfold sgx_create_rsa_priv1_key
    rw [if_pos h]
    exact ⟨rfl, rfl, rfl, rfl⟩
  · intro pv m k pn pe slot h
    have hc : slot = none ∨ m ≤ 0 ∨ k ≤ 0 ∨ pn = none ∨ pe = none := by tauto
    unfold sgx_create_rsa_pub1_key
    rw [if_pos hc]
    exact ⟨rfl, rfl, rfl, rfl⟩
  · intro pv rsa_key pout_data pout_len pin_data pin_len h
    have hc : rsa_key = none ∨ pout_len = none ∨ pin_data = none ∨ pin_len < 1 ∨
        pin_len ≥ INT_MAX := by
      rcases h with h | h | h | h | h
      · exact Or.inl h
      · exact Or.inr (Or.inl h)
      · exact Or.inr (Or.inr (Or.inl h))
      · exact Or.inr (Or.inr (Or.inr (Or.inl (by omega))))
      · exact Or.inr (Or.inr (Or.inr (Or.inr h)))
    unfold sgx_rsa_pub_encrypt_sha256 rsa_crypt_sha256
    rw [if_pos hc]
    exact ⟨rfl, rfl, rfl, rfl⟩
  · intro pv rsa_key pout_data pout_len pin_data pin_len h
    have hc : rsa_key = none ∨ pout_len = none ∨ pin_data = none ∨ pin_len < 1 ∨
        pin_len ≥ INT_MAX := by
      rcases h with h | h | h | h | h
      · exact Or.inl h
      · exact Or.inr (Or.inl h)
      · exact Or.inr (Or.inr (Or.inl h))
      · exact Or.inr (Or.inr (Or.inr (Or.inl (by omega))))
      · exact Or.inr (Or.inr (Or.inr (Or.inr h)))
    unfold sgx_rsa_priv_decrypt_sha256 rsa_crypt_sha256
    rw [if_pos hc]
    exact ⟨rfl, rfl, rfl, rfl⟩

/-- C3 at concrete inputs: a zero modulus size, a null exponent pointer, a negative size, a
null handle slot, a null key and a zero input length are each rejected without a provider
call and without a write. -/
theorem invalid_parameters_rejected_witness :
    ((sgx_create_rsa_key_pair provider512 0 8 mem512).ret_code = .ERROR_INVALID_PARAMETER ∧
      (sgx_create_rsa_key_pair provider512 0 8 mem512).mem = mem512 ∧
      (sgx_create_rsa_key_pair provider512 0 8 mem512).calls = [] ∧
      (sgx_create_rsa_key_pair provider512 0 8 mem512).copied = []) ∧
    ((sgx_create_rsa_priv2_key allOk 4 3 none (some p32) (some q32) (some dmp1_32)
        (some dmq1_32) (some iqmp32) (some none)).ret_code = .ERROR_INVALID_PARAMETER ∧
      (sgx_create_rsa_priv2_key allOk 4 3 none (some p32) (some q32) (some dmp1_32)
        (some dmq1_32) (some iqmp32) (some none)).slot = some none ∧
      (sgx_create_rsa_priv2_key allOk 4 3 none (some p32) (some q32) (some dmp1_32)
        (some dmq1_32) (some iqmp32) (some none)).calls = [] ∧
      (sgx_create_rsa_priv2_key allOk 4 3 none (some p32) (some q32) (some dmp1_32)
        (some dmq1_32) (some iqmp32) (some none)).allocated = []) ∧
    ((sgx_create_rsa_priv1_key allOk 4 3 (-1) (some n32) (some e65537) (some n32)
        (some none)).ret_code = .ERROR_INVALID_PARAMETER ∧
      (sgx_create_rsa_priv1_key allOk 4 3 (-1) (some n32) (some e65537) (some n32)
        (some none)).slot = some none ∧
      (sgx_create_rsa_priv1_key allOk 4 3 (-1) (some n32) (some e65537) (some n32)
        (some none)).calls = [] ∧
      (sgx_create_rsa_priv1_key allOk 4 3 (-1) (some n32) (some e65537) (some n32)
        (some none)).allocated = []) ∧
    ((sgx_create_rsa_pub1_key allOk 4 3 (some n32) (some e65537) none).ret_code =
        .ERROR_INVALID_PARAMETER ∧
      (sgx_create_rsa_pub1_key allOk 4 3 (some n32) (some e65537) none).slot = none ∧
      (sgx_create_rsa_pub1_key allOk 4 3 (some n32) (some e65537) none).calls = [] ∧
      (sgx_create_rsa_pub1_key allOk 4 3 (some n32) (some e65537) none).allocated = []) ∧
    ((sgx_rsa_pub_encrypt_sha256 demoCipher none (some block256) (some 256) (some hello)
        13).ret_code = .ERROR_INVALID_PARAMETER ∧
      (sgx_rsa_pub_encrypt_sha256 demoCipher none (some block256) (some 256) (some hello)
        13).pout_data = some block256 ∧
      (sgx_rsa_pub_encrypt_sha256 demoCipher none (some block256) (some 256) (some hello)
        13).pout_len = some 256 ∧
      (sgx_rsa_pub_encrypt_sha256 demoCipher none (some block256) (some 256) (some hello)
        13).calls = []) ∧
    ((sgx_rsa_priv_decrypt_sha256 demoCipher (some key2048) (some block256) (some 256)
        (some block256) 0).ret_code = .ERROR_INVALID_PARAMETER ∧
      (sgx_rsa_priv_decrypt_sha256 demoCipher (some key2048) (some block256) (some 256)
        (some block256) 0).pout_data = some block256 ∧
      (sgx_rsa_priv_decrypt_sha256 demoCipher (some key2048) (some block256) (some 256)
        (some block256) 0).pout_len = some 256 ∧
      (sgx_rsa_priv_decrypt_sha256 demoCipher (some key2048) (some block256) (some 256)
        (some block256) 0).calls = []) :=
  ⟨invalid_parameters_rejected.1 provider512 0 8 mem512 (Or.inl (le_refl 0)),
    invalid_parameters_rejected.2.1 allOk 4 3 none (some p32) (some q32) (some dmp1_32)
      (some dmq1_32) (some iqmp32) (some none) (Or.inr (Or.inr (Or.inr (Or.inl rfl)))),
    invalid_parameters_rejected.2.2.1 allOk 4 3 (-1) (some n32) (some e65537) (some n32)
      (some none) (Or.inr (Or.inr (Or.inl (by decide)))),
    invalid_parameters_rejected.2.2.2.1 allOk 4 3 (some n32) (some e65537) none
      (Or.inr (Or.inr (Or.inl rfl))),
    invalid_parameters_rejected.2.2.2.2.1 demoCipher none (some block256) (some 256)
      (some hello) 13 (Or.inl rfl),
    invalid_parameters_rejected.2.2.2.2.2 demoCipher (some key2048) (some block256) (some 256)
      (some block256) 0 (Or.inr (Or.inr (Or.inr (Or.inl rfl))))⟩

/-- C4: for both facade functions, when the length query succeeds and stores `L`, a call
with an output buffer whose declared capacity `len` is below `L` returns
`ERROR_INVALID_PARAMETER` and leaves the buffer and `*pout_len` unchanged. -/
theorem undersized_output_buffer_rejected :
    (∀ (pv : CipherProvider) (rsa_key : Option RSAKey) (buf : Buffer) (len len0 L : Nat)
      (pin_data : Option Buffer) (pin_len : Nat),
      (sgx_rsa_pub_encrypt_sha256 pv rsa_key none (some len0) pin_data pin_len).ret_code =
        .SUCCESS →
      (sgx_rsa_pub_encrypt_sha256 pv rsa_key none (some len0) pin_data pin_len).pout_len =
        some L →
      len < L →
      (sgx_rsa_pub_encrypt_sha256 pv rsa_key (some buf) (some len) pin_data
        pin_len).ret_code = .ERROR_INVALID_PARAMETER ∧
      (sgx_rsa_pub_encrypt_sha256 pv rsa_key (some buf) (some len) pin_data
        pin_len).pout_data = some buf ∧
      (sgx_rsa_pub_encrypt_sha256 pv rsa_key (some buf) (some len) pin_data
        pin_len).pout_len = some len) ∧
    (∀ (pv : CipherProvider) (rsa_key : Option RSAKey) (buf : Buffer) (len len0 L : Nat)
      (pin_data : Option Buffer) (pin_len : Nat),
      (sgx_rsa_priv_decrypt_sha256 pv rsa_key none (some len0) pin_data pin_len).ret_code =
        .SUCCESS →
      (sgx_rsa_priv_decrypt_sha256 pv rsa_key none (some len0) pin_data pin_len).pout_len =
        some L →
      len < L →
      (sgx_rsa_priv_decrypt_sha256 pv rsa_key (some buf) (some len) pin_data
        pin_len).ret_code = .ERROR_INVALID_PARAMETER ∧
      (sgx_rsa_priv_decrypt_sha256 pv rsa_key (some buf) (some len) pin_data
        pin_len).pout_data = some buf ∧
      (sgx_rsa_priv_decrypt_sha256 pv rsa_key (some buf) (some len) pin_data
        pin_len).pout_len = some len) := by
  have key : ∀ (dir : Direction) (pv : CipherProvider) (rsa_key : Option RSAKey)
      (buf : Buffer) (len len0 L : Nat) (pin_data : Option Buffer) (pin_len : Nat),
      (rsa_crypt_sha256 dir pv rsa_key none (some len0) pin_data pin_len).ret_code =
        .SUCCESS →
      (rsa_crypt_sha256 dir pv rsa_key none (some len0) pin_data pin_len).pout_len = some L →
      len < L →
      (rsa_crypt_sha256 dir pv rsa_key (some buf) (some len) pin_data pin_len).ret_code =
        .ERROR_INVALID_PARAMETER ∧
      (rsa_crypt_sha256 dir pv rsa_key (some buf) (some len) pin_data pin_len).pout_data =
        some buf ∧
      (rsa_crypt_sha256 dir pv rsa_key (some buf) (some len) pin_data pin_len).pout_len =
        some len := by
    intro dir pv rsa_key buf len len0 L pin_data pin_len hret hlen hsmall
    obtain ⟨hvalid, hctx, hinit, hL, hL0⟩ :=
      rsa_crypt_probe dir pv rsa_key (some len0) pin_data pin_len L hret hlen
    have hvalid2 : ¬ (rsa_key = none ∨ (some len : Option Nat) = none ∨ pin_data = none ∨
        pin_len < 1 ∨ pin_len ≥ INT_MAX) := by
      intro h
      apply hvalid
      rcases h with h | h | h | h | h
      · exact Or.inl h
      · exact absurd h (by simp)
      · exact Or.inr (Or.inr (Or.inl h))
      · exact Or.inr (Or.inr (Or.inr (Or.inl h)))
      · exact Or.inr (Or.inr (Or.inr (Or.inr h)))
    rw [rsa_crypt_fill_small dir pv rsa_key buf len pin_data pin_len hvalid2 hctx hinit
      (hL ▸ hL0) (hL ▸ hsmall)]
    exact ⟨rfl, rfl, rfl⟩
  exact ⟨fun pv => key .encrypt pv, fun pv => key .decrypt pv⟩

/-- C4 at concrete inputs: with a 256-byte key the length query stores 256, and a call with a
buffer declared 255 bytes long is refused, for encryption and for decryption. -/
theorem undersized_output_buffer_rejected_witness :
    ((sgx_rsa_pub_encrypt_sha256 demoCipher (some key2048) (some block256) (some 255)
        (some hello) 13).ret_code = .ERROR_INVALID_PARAMETER ∧
      (sgx_rsa_pub_encrypt_sha256 demoCipher (some key2048) (some block256) (some 255)
        (some hello) 13).pout_data = some block256 ∧
      (sgx_rsa_pub_encrypt_sha256 demoCipher (some key2048) (some block256) (some 255)
        (some hello) 13).pout_len = some 255) ∧
    ((sgx_rsa_priv_decrypt_sha256 demoCipher (some key2048) (some block256) (some 255)
        (some block256) 256).ret_code = .ERROR_INVALID_PARAMETER ∧
      (sgx_rsa_priv_decrypt_sha256 demoCipher (some key2048) (some block256) (some 255)
        (some block256) 256).pout_data = some block256 ∧
      (sgx_rsa_priv_decrypt_sha256 demoCipher (some key2048) (some block256) (some 255)
        (some block256) 256).pout_len = some 255) :=
  ⟨undersized_output_buffer_rejected.1 demoCipher (some key2048) block256 255 0 256
      (some hello) 13 demo_encrypt_probe.1 demo_encrypt_probe.2 (by decide),
    undersized_output_buffer_rejected.2 demoCipher (some key2048) block256 255 0 256
      (some block256) 256 demo_decrypt_probe_block.1 demo_decrypt_probe_block.2 (by decide)⟩

end SgxRsa
